import Mathlib

/-!
Verification development for the nflreadpy-supabase data layer.

The embedding models the three components of the core:
 - the Schema Mapper (`src/data_loader/pbp_loader.py`, `player_loader.py`,
   `team_loader.py`: the `prepare_for_upload` methods),
 - the Batch Uploader (`src/supabase_client/client.py`, `upload_dataframe`),
 - the Filtered Reader (`src/supabase_client/client.py`, `query`).

Tables (polars DataFrames) are modelled as a list of column names together
with a list of rows; a row is a function from column name to `Value`.
Cell values are null, 64-bit-style integers (unbounded `Int` with explicit
range checks where the code casts), or strings.  Fallible polars operations
(renaming onto an existing column name raises a duplicate-column error)
return `Except`.
-/

namespace NflSupabase

inductive Value where
  | vnull : Value
  | vint : Int → Value
  | vstr : String → Value
deriving DecidableEq, Repr, Inhabited

open Value

abbrev Row := String → Value

structure DataFrame where
  cols : List String
  rows : List Row

/-- Builds a row from an association list; absent columns read as null. -/
def mkRow (ps : List (String × Value)) : Row := fun c => ((ps.lookup c).getD Value.vnull)

/-- Observable content of a frame: its header and its grid of cells. -/
def toCells (df : DataFrame) : List String × List (List Value) :=
  (df.cols, df.rows.map (fun r => df.cols.map r))

/-- The list of values of one column, top to bottom. -/
def colValues (c : String) (df : DataFrame) : List Value :=
  df.rows.map (fun r => r c)

/-- polars `df.select(cs)`; the code only ever selects existing columns. -/
def select (cs : List String) (df : DataFrame) : DataFrame :=
  ⟨cs, df.rows⟩

/-- polars `df.filter(pred)`. -/
def filterRows (p : Row → Bool) (df : DataFrame) : DataFrame :=
  ⟨df.cols, df.rows.filter p⟩

/-- polars `df.with_columns(expr.alias c)`: replaces column `c` in place or
appends it at the end. -/
def withColumn (c : String) (f : Row → Value) (df : DataFrame) : DataFrame :=
  ⟨if c ∈ df.cols then df.cols else df.cols ++ [c],
   df.rows.map (fun r => fun c2 => if c2 = c then f r else r c2)⟩

/-- polars `df.rename({old: new})`: raises if `old` is absent or if the
rename would duplicate an existing column name. -/
def renameCol (old new : String) (df : DataFrame) : Except String DataFrame :=
  if old ∈ df.cols then
    if new ≠ old ∧ new ∈ df.cols then
      Except.error ("duplicate column name " ++ new)
    else
      Except.ok ⟨df.cols.map (fun c => if c = old then new else c),
                 df.rows.map (fun r => fun c => if c = new then r old else r c)⟩
  else Except.error ("column not found " ++ old)

/-- The loaders guard most renames by the presence of the source column;
`renameStep` is `renameCol` applied only when `old` is a column. -/
def renameStep (old new : String) (df : DataFrame) : Except String DataFrame :=
  if old ∈ df.cols then renameCol old new df else Except.ok df

/-- Decimal digit run to a number; fails on a non-digit or an empty run. -/
def digitsToNat : List Char → Nat → Option Nat
  | [], acc => some acc
  | c :: cs, acc =>
    if c.isDigit then digitsToNat cs (acc * 10 + (c.toNat - 48)) else none

/-- Integer parsing of a string: optional sign followed by a nonempty digit
run (the parser the non-strict numeric cast applies to string columns). -/
def strToInt? (s : String) : Option Int :=
  match s.data with
  | [] => none
  | c :: cs =>
    if c = Char.ofNat 45 then
      match cs with
      | [] => none
      | _ => (digitsToNat cs 0).map (fun n => -(n : Int))
    else if c = Char.ofNat 43 then
      match cs with
      | [] => none
      | _ => (digitsToNat cs 0).map (fun n => (n : Int))
    else (digitsToNat (c :: cs) 0).map (fun n => (n : Int))

/-- polars `.cast(pl.Int32, strict=False)` on one cell: in-range numeric
values are kept (numeric strings are parsed), everything else becomes null. -/
def castInt32 (v : Value) : Value :=
  match v with
  | Value.vnull => Value.vnull
  | Value.vint n => if -2147483648 ≤ n ∧ n < 2147483648 then Value.vint n else Value.vnull
  | Value.vstr s =>
    match strToInt? s with
    | some n => if -2147483648 ≤ n ∧ n < 2147483648 then Value.vint n else Value.vnull
    | none => Value.vnull

/-- The numeric reading of a cell, if any (claim-side companion of
`castInt32`). -/
def toNumeric (v : Value) : Option Int :=
  match v with
  | Value.vnull => none
  | Value.vint n => some n
  | Value.vstr s => strToInt? s

/-- polars `.cast(pl.Utf8)` on one cell (used for `birth_date`). -/
def castStr (v : Value) : Value :=
  match v with
  | Value.vnull => Value.vnull
  | Value.vint n => Value.vstr (toString n)
  | Value.vstr s => Value.vstr s

/-- polars `.fill_null(0)` on one cell. -/
def fill0 (v : Value) : Value :=
  match v with
  | Value.vnull => Value.vint 0
  | v => v

/-- Addition of two cells (both operands are `fill_null(0)`-ed integers at
every use site). -/
def addV (a b : Value) : Value :=
  match a, b with
  | Value.vint x, Value.vint y => Value.vint (x + y)
  | _, _ => Value.vnull

/-- polars `pl.sum_horizontal(exprs)` for a nonempty list of expressions. -/
def sumH (es : List (Row → Value)) (r : Row) : Value :=
  match es with
  | [] => Value.vnull
  | e :: rest => rest.foldl (fun acc e2 => addV acc (e2 r)) (e r)

/-- `[col for col in schema_columns if col in df.columns]`. -/
def availableCols (schema cols : List String) : List String :=
  schema.filter (fun c => c ∈ cols)

/-- The guarded `.cast(pl.Int32, strict=False)` loop over a list of column
names (`for col in int_cols: if col in result.columns: ...`). -/
def castCols (cs : List String) (df : DataFrame) : DataFrame :=
  cs.foldl (fun d c => if c ∈ d.cols then withColumn c (fun r => castInt32 (r c)) d else d) df

/-- The pointwise effect of the guarded cast loop on one row. -/
def castRowFun (cs cols : List String) (r : Row) : Row :=
  fun c => if c ∈ cs ∧ c ∈ cols then castInt32 (r c) else r c

/-- Keeps the first row for each key value, in order (polars
`unique(subset=[c], keep="first")`). -/
def dedupKeys (key : Row → Value) : List Value → List Row → List Row
  | _, [] => []
  | seen, r :: rs =>
    if key r ∈ seen then dedupKeys key seen rs
    else r :: dedupKeys key (key r :: seen) rs

def uniqueBy (c : String) (df : DataFrame) : DataFrame :=
  ⟨df.cols, dedupKeys (fun r => r c) [] df.rows⟩

/-! Column lists, transcribed from the three loaders. -/

def pbpKeyColumns : List String :=
  ["play_id", "game_id", "season", "week", "game_date", "posteam", "defteam",
   "quarter", "time", "down", "ydstogo", "yardline_100", "play_type",
   "yards_gained", "epa", "wp", "wpa", "passer_player_name",
   "receiver_player_name", "rusher_player_name", "desc", "score_differential"]

def pbpIntColumns : List String :=
  ["season", "week", "quarter", "down", "ydstogo", "yardline_100",
   "yards_gained", "score_differential"]

def playerSchemaColumns : List String :=
  ["player_id", "player_name", "season", "week", "team", "position",
   "completions", "attempts", "passing_yards", "passing_tds", "interceptions",
   "carries", "rushing_yards", "rushing_tds", "receptions", "receiving_yards",
   "receiving_tds", "targets", "fantasy_points", "fantasy_points_ppr"]

def playerIntColumns : List String :=
  ["season", "week", "completions", "attempts", "passing_yards",
   "passing_tds", "interceptions", "carries", "rushing_yards", "rushing_tds",
   "receptions", "receiving_yards", "receiving_tds", "targets"]

def playerInfoSchemaColumns : List String :=
  ["player_id", "player_name", "position", "height", "weight", "college",
   "birth_date", "draft_year", "draft_round", "draft_pick", "draft_team",
   "gsis_id", "espn_id", "yahoo_id"]

def playerInfoIntColumns : List String :=
  ["weight", "draft_year", "draft_round", "draft_pick"]

def schedulesSchemaColumns : List String :=
  ["game_id", "season", "week", "game_type", "gameday", "home_team",
   "away_team", "home_score", "away_score", "stadium", "location", "roof",
   "surface", "temp", "wind"]

def schedulesIntColumns : List String :=
  ["season", "week", "home_score", "away_score", "temp", "wind"]

def rostersSchemaColumns : List String :=
  ["player_id", "player_name", "season", "team", "position",
   "depth_chart_position", "jersey_number", "status", "height", "weight",
   "birth_date", "college"]

def rostersIntColumns : List String :=
  ["season", "jersey_number", "weight"]

def teamInfoSchemaColumns : List String :=
  ["team_abbr", "team_name", "team_nick", "team_color", "team_color2",
   "team_logo_espn", "team_logo_wikipedia", "team_conference",
   "team_division"]

def teamStatsSchemaColumns : List String :=
  ["team", "season", "week", "opponent", "completions", "attempts",
   "passing_yards", "passing_tds", "interceptions", "carries",
   "rushing_yards", "rushing_tds", "total_yards", "turnovers", "points"]

def teamStatsIntColumns : List String :=
  ["season", "week", "completions", "attempts", "passing_yards",
   "passing_tds", "interceptions", "carries", "rushing_yards", "rushing_tds",
   "total_yards", "turnovers", "points"]

/-! The Schema Mapper: the three `prepare_for_upload` methods and
`prepare_player_info_for_upload`, translated step by step. -/

/-- `PlayByPlayLoader.prepare_for_upload`. -/
def pbpPrepare (df : DataFrame) : DataFrame :=
  let result := select (availableCols pbpKeyColumns df.cols) df
  let result := castCols pbpIntColumns result
  if "play_id" ∈ result.cols then uniqueBy "play_id" result else result

/-- `PlayerStatsLoader.prepare_for_upload`. -/
def playerPrepare (df : DataFrame) : Except String DataFrame :=
  let df0 := if "player_id" ∈ df.cols then
      filterRows (fun r => r "player_id" != Value.vnull) df
    else df
  let renamed : Except String DataFrame :=
    if "passing_interceptions" ∈ df0.cols ∧ "interceptions" ∉ df0.cols then
      renameCol "passing_interceptions" "interceptions" df0
    else Except.ok df0
  renamed.bind (fun df1 =>
    Except.ok (castCols playerIntColumns
      (select (availableCols playerSchemaColumns df1.cols) df1)))

/-- `PlayerStatsLoader.prepare_player_info_for_upload`. -/
def playerInfoPrepare (df : DataFrame) : Except String DataFrame :=
  let df0 := if "gsis_id" ∈ df.cols then
      filterRows (fun r => r "gsis_id" != Value.vnull) df
    else df
  let df1 := if "gsis_id" ∈ df0.cols then
      withColumn "player_id" (fun r => r "gsis_id") df0
    else df0
  (renameStep "display_name" "player_name" df1).bind (fun df2 =>
    let result := castCols playerInfoIntColumns
      (select (availableCols playerInfoSchemaColumns df2.cols) df2)
    let result := if "birth_date" ∈ result.cols then
        withColumn "birth_date" (fun r => castStr (r "birth_date")) result
      else result
    Except.ok result)

/-- Derived-column expression `total_yards = passing_yards.fill_null(0) +
rushing_yards.fill_null(0)` of the team-stats branch. -/
def totalYardsExpr (r : Row) : Value :=
  addV (fill0 (r "passing_yards")) (fill0 (r "rushing_yards"))

/-- The three turnover-contributing source columns, in the order the code
checks them. -/
def turnoverSources : List String :=
  ["passing_interceptions", "rushing_fumbles_lost", "sack_fumbles_lost"]

/-- Derived-column expression `turnovers = sum_horizontal(...)` over the
present turnover-contributing columns. -/
def turnoversExpr (tcols : List String) (r : Row) : Value :=
  sumH (tcols.map (fun c => fun row => fill0 (row c))) r

/-- The `data_type == "schedules"` branch of
`TeamDataLoader.prepare_for_upload`. -/
def prepSchedules (df : DataFrame) : Except String DataFrame :=
  let df1 := select (availableCols schedulesSchemaColumns df.cols) df
  (renameStep "gameday" "game_date" df1).bind (fun df2 =>
    Except.ok (castCols schedulesIntColumns df2))

/-- The `data_type == "rosters"` branch of
`TeamDataLoader.prepare_for_upload`. -/
def prepRosters (df : DataFrame) : Except String DataFrame :=
  let df0 := if "gsis_id" ∈ df.cols then
      filterRows (fun r => r "gsis_id" != Value.vnull) df
    else df
  let df1 := if "birth_date" ∈ df0.cols then
      withColumn "birth_date" (fun r => castStr (r "birth_date")) df0
    else df0
  (renameStep "gsis_id" "player_id" df1).bind (fun df2 =>
    (renameStep "full_name" "player_name" df2).bind (fun df3 =>
      Except.ok (castCols rostersIntColumns
        (select (availableCols rostersSchemaColumns df3.cols) df3))))

/-- The `data_type == "info"` branch of `TeamDataLoader.prepare_for_upload`. -/
def prepInfo (df : DataFrame) : Except String DataFrame :=
  Except.ok (select (availableCols teamInfoSchemaColumns df.cols) df)

/-- The `data_type == "stats"` branch of `TeamDataLoader.prepare_for_upload`. -/
def prepStats (df : DataFrame) : Except String DataFrame :=
  let df1 := if "passing_yards" ∈ df.cols ∧ "rushing_yards" ∈ df.cols then
      withColumn "total_yards" totalYardsExpr df
    else df
  let tcols := availableCols turnoverSources df1.cols
  let df2 := if tcols ≠ [] then withColumn "turnovers" (turnoversExpr tcols) df1 else df1
  (renameStep "opponent_team" "opponent" df2).bind (fun df3 =>
    (renameStep "passing_interceptions" "interceptions" df3).bind (fun df4 =>
      Except.ok (castCols teamStatsIntColumns
        (select (availableCols teamStatsSchemaColumns df4.cols) df4))))

/-- `TeamDataLoader.prepare_for_upload`: dispatch on `data_type`; any other
value falls through to `return df`. -/
def teamPrepare (df : DataFrame) (data_type : String) : Except String DataFrame :=
  if data_type = "schedules" then prepSchedules df
  else if data_type = "rosters" then prepRosters df
  else if data_type = "info" then prepInfo df
  else if data_type = "stats" then prepStats df
  else Except.ok df

/-! The Batch Uploader (`SupabaseClient.upload_dataframe`).  Remote failures
are modelled by an oracle `fails` mapping a chunk start offset to whether
that chunk's insert/upsert raises, and `emsg` giving the message of the
raised exception. -/

structure UploadResult where
  total_rows : Nat
  uploaded : Nat
  errors : Nat
  error_details : List (Nat × String)
deriving Repr, DecidableEq

structure GoRes where
  uploaded : Nat
  errs : List (Nat × String)
  attempts : List Nat
deriving Repr, DecidableEq

/-- The loop `for i in range(0, total_rows, batch_size)` with
`batch = records[i : i + batch_size]`, restated on the remaining record list
(`fuel` only bounds the iteration count; `rows.length` is always enough when
`1 ≤ b`).  Besides the accumulated `uploaded` count and error list it records
the start offset of every attempted chunk. -/
def uploadGo (fails : Nat → Bool) (emsg : Nat → String) (b : Nat) :
    Nat → List Row → Nat → GoRes
  | _, [], _ => ⟨0, [], []⟩
  | 0, _ :: _, _ => ⟨0, [], []⟩
  | fuel + 1, r :: rs, i =>
    let res := uploadGo fails emsg b fuel ((r :: rs).drop b) (i + b)
    if fails i then ⟨res.uploaded, (i, emsg i) :: res.errs, i :: res.attempts⟩
    else ⟨((r :: rs).take b).length + res.uploaded, res.errs, i :: res.attempts⟩

/-- `SupabaseClient.upload_dataframe`, returning the summary dictionary. -/
def upload_dataframe (df : DataFrame) (b : Nat) (fails : Nat → Bool)
    (emsg : Nat → String) : UploadResult :=
  let res := uploadGo fails emsg b df.rows.length df.rows 0
  ⟨df.rows.length, res.uploaded, res.errs.length, res.errs⟩

/-- The attempted chunk offsets of an upload run. -/
def uploadAttempts (df : DataFrame) (b : Nat) (fails : Nat → Bool)
    (emsg : Nat → String) : List Nat :=
  (uploadGo fails emsg b df.rows.length df.rows 0).attempts

/-- The chunk decomposition `[(i, records[i : i + b]) for i in
range(0, total, b)]`, with the same recursion structure as `uploadGo`. -/
def chunksGo (b : Nat) : Nat → List Row → Nat → List (Nat × List Row)
  | _, [], _ => []
  | 0, _ :: _, _ => []
  | fuel + 1, r :: rs, i =>
    (i, (r :: rs).take b) :: chunksGo b fuel ((r :: rs).drop b) (i + b)

def chunks (df : DataFrame) (b : Nat) : List (Nat × List Row) :=
  chunksGo b df.rows.length df.rows 0

/-! The Filtered Reader (`SupabaseClient.query`). -/

structure RemoteTable where
  cols : List String
  rows : List Row

/-- A row matches a filter mapping when every `column = value` pair holds. -/
def matchesFilters (fs : List (String × Value)) (r : Row) : Bool :=
  fs.all (fun p => r p.1 == p.2)

/-- Modelled from the spec: the remote store (Supabase/PostgREST, not part of
this repository) evaluates a select with chained `eq` filters by returning
exactly the stored rows satisfying every equality filter, and returns an
empty row list rather than an error when nothing matches. -/
def remoteSelect (t : RemoteTable) (fs : List (String × Value)) : List Row :=
  t.rows.filter (matchesFilters fs)

/-- `SupabaseClient.query`: `select("*")`, then `.eq(col, val)` for each
filter pair, guarded by `if filters:` (skipped for `None` and for an empty
mapping). -/
def query (t : RemoteTable) (filters : Option (List (String × Value))) : DataFrame :=
  let applied := match filters with
    | none => []
    | some fs => if fs.isEmpty then [] else fs
  ⟨t.cols, remoteSelect t applied⟩

/-! Claim-side helper functions (projections of `Except` results, and the
column-set transformations the spec sentences describe). -/

def isOkDF (x : Except String DataFrame) : Bool :=
  match x with
  | Except.ok _ => true
  | Except.error _ => false

def exceptColsList (x : Except String DataFrame) : List String :=
  match x with
  | Except.ok d => d.cols
  | Except.error _ => []

def exceptRowCount (x : Except String DataFrame) : Nat :=
  match x with
  | Except.ok d => d.rows.length
  | Except.error _ => 0

def exceptColValues (c : String) (x : Except String DataFrame) : List Value :=
  match x with
  | Except.ok d => colValues c d
  | Except.error _ => []

def exceptToCells (x : Except String DataFrame) : Option (List String × List (List Value)) :=
  match x with
  | Except.ok d => some (toCells d)
  | Except.error _ => none

/-- Column-name substitution performed by a rename. -/
def substCol (old new c : String) : String :=
  if c = old then new else c

/-- Effect of a guarded rename on the column list. -/
def renameColsIf (old new : String) (cols : List String) : List String :=
  if old ∈ cols then cols.map (substCol old new) else cols

/-- Input columns of the player-stats mapper after its (guarded) rename. -/
def playerColsAfterRename (cols : List String) : List String :=
  if "passing_interceptions" ∈ cols ∧ "interceptions" ∉ cols then
    cols.map (substCol "passing_interceptions" "interceptions")
  else cols

/-- Input columns of the rosters mapper after its renames. -/
def rostersColsAfterRename (cols : List String) : List String :=
  renameColsIf "full_name" "player_name" (renameColsIf "gsis_id" "player_id" cols)

/-- Input columns of the schedules mapper after its rename. -/
def schedulesColsAfterRename (cols : List String) : List String :=
  renameColsIf "gameday" "game_date" cols

/-- Effect on the column list of the derived `total_yards` addition. -/
def colsWithTotal (cols : List String) : List String :=
  if "passing_yards" ∈ cols ∧ "rushing_yards" ∈ cols then
    (if "total_yards" ∈ cols then cols else cols ++ ["total_yards"])
  else cols

/-- Effect on the column list of the derived `turnovers` addition. -/
def colsWithTurnovers (cols : List String) : List String :=
  if availableCols turnoverSources cols ≠ [] then
    (if "turnovers" ∈ cols then cols else cols ++ ["turnovers"])
  else cols

/-- Input columns of the team-stats mapper after the pre-selection addition
of the derived columns and the renames. -/
def statsColsDerived (cols : List String) : List String :=
  renameColsIf "passing_interceptions" "interceptions"
    (renameColsIf "opponent_team" "opponent"
      (colsWithTurnovers (colsWithTotal cols)))

/-- Modelled from the spec: the destination-schema column list of the
`schedules` table.  The schema file `sql/schema.sql` is referenced by the
repository but not part of the sources; per the spec the mapper renames
`gameday` to `game_date` "to match database schema", so the destination list
is the selection list with `gameday` replaced by `game_date`. -/
def destSchedulesColumns : List String :=
  schedulesSchemaColumns.map (substCol "gameday" "game_date")

/-! Success-shape companions of the mappers: the frame a mapper returns
when none of its renames raises, written as total functions.  They are used
to characterize the `Except.ok` results of the mappers. -/

/-- The frame produced by a successful `renameCol`. -/
def renamedF (old new : String) (df : DataFrame) : DataFrame :=
  ⟨df.cols.map (fun c => if c = old then new else c),
   df.rows.map (fun r => fun c => if c = new then r old else r c)⟩

/-- The frame produced by a non-raising guarded rename. -/
def renameStepF (old new : String) (df : DataFrame) : DataFrame :=
  if old ∈ df.cols then renamedF old new df else df

def playerFiltered (df : DataFrame) : DataFrame :=
  if "player_id" ∈ df.cols then
    filterRows (fun r => r "player_id" != Value.vnull) df
  else df

def playerRenamed (df : DataFrame) : DataFrame :=
  if "passing_interceptions" ∈ (playerFiltered df).cols
      ∧ "interceptions" ∉ (playerFiltered df).cols then
    renamedF "passing_interceptions" "interceptions" (playerFiltered df)
  else playerFiltered df

def playerBody (df : DataFrame) : DataFrame :=
  castCols playerIntColumns
    (select (availableCols playerSchemaColumns (playerRenamed df).cols)
      (playerRenamed df))

def playerInfoFiltered (df : DataFrame) : DataFrame :=
  if "gsis_id" ∈ df.cols then
    filterRows (fun r => r "gsis_id" != Value.vnull) df
  else df

def playerInfoWithId (df : DataFrame) : DataFrame :=
  if "gsis_id" ∈ (playerInfoFiltered df).cols then
    withColumn "player_id" (fun r => r "gsis_id") (playerInfoFiltered df)
  else playerInfoFiltered df

def playerInfoBody (df : DataFrame) : DataFrame :=
  let df2 := renameStepF "display_name" "player_name" (playerInfoWithId df)
  let result := castCols playerInfoIntColumns
    (select (availableCols playerInfoSchemaColumns df2.cols) df2)
  if "birth_date" ∈ result.cols then
    withColumn "birth_date" (fun r => castStr (r "birth_date")) result
  else result

def rostersFiltered (df : DataFrame) : DataFrame :=
  if "gsis_id" ∈ df.cols then
    filterRows (fun r => r "gsis_id" != Value.vnull) df
  else df

def rostersDated (df : DataFrame) : DataFrame :=
  if "birth_date" ∈ (rostersFiltered df).cols then
    withColumn "birth_date" (fun r => castStr (r "birth_date")) (rostersFiltered df)
  else rostersFiltered df

def rostersBody (df : DataFrame) : DataFrame :=
  let df3 := renameStepF "full_name" "player_name"
    (renameStepF "gsis_id" "player_id" (rostersDated df))
  castCols rostersIntColumns
    (select (availableCols rostersSchemaColumns df3.cols) df3)

def schedulesBody (df : DataFrame) : DataFrame :=
  let df2 := renameStepF "gameday" "game_date"
    (select (availableCols schedulesSchemaColumns df.cols) df)
  castCols schedulesIntColumns df2

def statsWithTotal (df : DataFrame) : DataFrame :=
  if "passing_yards" ∈ df.cols ∧ "rushing_yards" ∈ df.cols then
    withColumn "total_yards" totalYardsExpr df
  else df

def statsDerived (df : DataFrame) : DataFrame :=
  if availableCols turnoverSources (statsWithTotal df).cols ≠ [] then
    withColumn "turnovers"
      (turnoversExpr (availableCols turnoverSources (statsWithTotal df).cols))
      (statsWithTotal df)
  else statsWithTotal df

def statsBody (df : DataFrame) : DataFrame :=
  let df4 := renameStepF "passing_interceptions" "interceptions"
    (renameStepF "opponent_team" "opponent" (statsDerived df))
  castCols teamStatsIntColumns
    (select (availableCols teamStatsSchemaColumns df4.cols) df4)

/-! Concrete inputs used by witnesses and counterexamples. -/

/-- A 2,500-row table (row contents are irrelevant to the uploader). -/
def df2500 : DataFrame := ⟨["a"], List.replicate 2500 (mkRow [("a", Value.vint 1)])⟩

/-- Failure oracle making exactly the second chunk (start offset 1000) fail. -/
def failsSecond (i : Nat) : Bool := i == 1000

def emsgBoom (_ : Nat) : String := "boom"

/-- A 5-row table for exercising the error-collection statement. -/
def dfFive : DataFrame := ⟨["a"], List.replicate 5 (mkRow [("a", Value.vint 1)])⟩

def failsAt2 (i : Nat) : Bool := i == 2

def emsgBad (_ : Nat) : String := "bad"

/-- Team-stats input whose mapped output gains the derived column. -/
def statsColsCexDf : DataFrame := ⟨["team", "passing_yards", "rushing_yards"], []⟩

/-- A schedules input that already uses the destination name `game_date`. -/
def schedGameDateDf : DataFrame := ⟨["game_id", "game_date"], []⟩

/-- Input exercising several mappers at once. -/
def multiColsDf : DataFrame :=
  ⟨["gameday", "gsis_id", "passing_yards", "rushing_yards", "season"],
   [mkRow [("gameday", Value.vstr "2024-09-01"), ("gsis_id", Value.vstr "00-1"),
           ("passing_yards", Value.vint 100), ("rushing_yards", Value.vint 50),
           ("season", Value.vint 2024)]]⟩

/-- Schedules input showing non-idempotence of the schedules mapping. -/
def schedCexDf : DataFrame :=
  ⟨["game_id", "gameday"],
   [mkRow [("game_id", Value.vstr "g1"), ("gameday", Value.vstr "2024-09-01")]]⟩

/-- Team-stats input with an out-of-Int32-range yardage value. -/
def statsCexDf : DataFrame :=
  ⟨["passing_yards", "rushing_yards"],
   [mkRow [("passing_yards", Value.vint 2147483648), ("rushing_yards", Value.vint 5)]]⟩

/-- Play-by-play input for the idempotence witness. -/
def pbpWitDf : DataFrame :=
  ⟨["play_id", "season", "desc"],
   [mkRow [("play_id", Value.vint 1), ("season", Value.vint 2024), ("desc", Value.vstr "run")],
    mkRow [("play_id", Value.vint 1), ("season", Value.vint 2024), ("desc", Value.vstr "dup")],
    mkRow [("play_id", Value.vint 2), ("season", Value.vnull), ("desc", Value.vstr "pass")]]⟩

/-- Team-stats input containing both a rename source and its destination. -/
def dupStatsDf : DataFrame := ⟨["opponent_team", "opponent"], []⟩

/-- Team-stats input containing both `passing_interceptions` and its
destination `interceptions`, and no opponent columns. -/
def dupIntDf : DataFrame := ⟨["passing_interceptions", "interceptions"], []⟩

/-- Input containing both `passing_interceptions` and `interceptions`
(and no opponent columns), usable as a player-stats table. -/
def dupPlayerDf : DataFrame :=
  ⟨["player_id", "interceptions", "passing_interceptions"],
   [mkRow [("player_id", Value.vstr "00-1"), ("interceptions", Value.vint 2),
           ("passing_interceptions", Value.vint 7)]]⟩

/-- Team-stats input containing both `opponent_team` and `opponent`. -/
def opponentPairDf : DataFrame :=
  ⟨["opponent_team", "opponent", "interceptions"], []⟩

def rosterRow (i : Nat) : Row :=
  mkRow [("gsis_id", Value.vstr (toString i)), ("full_name", Value.vstr "p"),
         ("season", Value.vint 2024)]

/-- A 10-row roster table with exactly one null `gsis_id`. -/
def roster10 : DataFrame :=
  ⟨["gsis_id", "full_name", "season"],
   (List.range 9).map rosterRow
     ++ [mkRow [("gsis_id", Value.vnull), ("full_name", Value.vstr "x"),
                ("season", Value.vint 2024)]]⟩

/-- A 3-row remote table for the Filtered Reader witness. -/
def remoteWitTable : RemoteTable :=
  ⟨["team", "season"],
   [mkRow [("team", Value.vstr "KC"), ("season", Value.vint 2024)],
    mkRow [("team", Value.vstr "SF"), ("season", Value.vint 2024)],
    mkRow [("team", Value.vstr "KC"), ("season", Value.vint 2023)]]⟩

/-- Team-stats input realizing the spec total-yards calculation example. -/
def df330 : DataFrame :=
  ⟨["passing_yards", "rushing_yards", "passing_interceptions"],
   [mkRow [("passing_yards", Value.vint 250), ("rushing_yards", Value.vint 80),
           ("passing_interceptions", Value.vnull)]]⟩

/-- Team-stats input whose total-yards sum leaves the Int32 range. -/
def statsOverflowDf : DataFrame :=
  ⟨["team", "passing_yards", "rushing_yards"],
   [mkRow [("team", Value.vstr "KC"), ("passing_yards", Value.vint 2147483648),
           ("rushing_yards", Value.vint 5)]]⟩

/-- Input for the unknown-data-type witness. -/
def unknownTypeDf : DataFrame := ⟨["x", "y"], [mkRow [("x", Value.vint 1)]]⟩

/-! Batch Uploader lemmas. -/

theorem uploadGo_nil (f : Nat → Bool) (e : Nat → String) (b fuel i : Nat) :
    uploadGo f e b fuel [] i = ⟨0, [], []⟩ := by
  cases fuel <;> rfl

theorem chunksGo_nil (b fuel i : Nat) : chunksGo b fuel [] i = [] := by
  cases fuel <;> rfl

theorem upload_sum_invariant (f : Nat → Bool) (e : Nat → String) (b : Nat) (hb : 1 ≤ b) :
    ∀ (fuel : Nat) (l : List Row) (i : Nat), l.length ≤ fuel →
      (uploadGo f e b fuel l i).uploaded
          + (((chunksGo b fuel l i).filter (fun c => f c.1)).map (fun c => c.2.length)).sum
        = l.length := by
  intro fuel
  induction fuel with
  | zero =>
    intro l i h
    have : l = [] := List.length_eq_zero.mp (Nat.le_zero.mp h)
    subst this
    simp [uploadGo_nil, chunksGo_nil]
  | succ fuel ih =>
    intro l i h
    cases l with
    | nil => simp [uploadGo_nil, chunksGo_nil]
    | cons r rs =>
      have hrest : ((r :: rs).drop b).length ≤ fuel := by
        simp only [List.length_drop, List.length_cons] at *
        omega
      have hlen : ((r :: rs).take b).length + ((r :: rs).drop b).length
          = (r :: rs).length := by
        simp only [List.length_take, List.length_drop, List.length_cons]
        omega
      have ihr := ih ((r :: rs).drop b) (i + b) hrest
      simp only [uploadGo, chunksGo]
      by_cases hf : f i
      · simp only [hf, if_true, List.filter_cons_of_pos, List.map_cons, List.sum_cons]
        omega
      · simp only [hf, if_false, Bool.false_eq_true, List.filter_cons_of_neg,
          not_false_iff]
        omega

theorem chunks_flatten_invariant (b : Nat) (hb : 1 ≤ b) :
    ∀ (fuel : Nat) (l : List Row) (i : Nat), l.length ≤ fuel →
      ((chunksGo b fuel l i).map (fun c => c.2)).flatten = l := by
  intro fuel
  induction fuel with
  | zero =>
    intro l i h
    have : l = [] := List.length_eq_zero.mp (Nat.le_zero.mp h)
    subst this
    simp [chunksGo_nil]
  | succ fuel ih =>
    intro l i h
    cases l with
    | nil => simp [chunksGo_nil]
    | cons r rs =>
      have hrest : ((r :: rs).drop b).length ≤ fuel := by
        simp only [List.length_drop, List.length_cons] at *
        omega
      simp only [chunksGo, List.map_cons, List.flatten_cons,
        ih ((r :: rs).drop b) (i + b) hrest, List.take_append_drop]

theorem chunks_size_invariant (b : Nat) :
    ∀ (fuel : Nat) (l : List Row) (i : Nat),
      ∀ c ∈ chunksGo b fuel l i, c.2.length ≤ b := by
  intro fuel
  induction fuel with
  | zero =>
    intro l i c hc
    cases l <;> simp [chunksGo_nil, chunksGo] at hc
  | succ fuel ih =>
    intro l i c hc
    cases l with
    | nil => simp [chunksGo_nil] at hc
    | cons r rs =>
      simp only [chunksGo, List.mem_cons] at hc
      rcases hc with hc | hc
      · subst hc
        simp only [List.length_take, List.length_cons]
        omega
      · exact ih _ _ c hc

theorem uploadGo_attempts_eq (f : Nat → Bool) (e : Nat → String) (b : Nat) :
    ∀ (fuel : Nat) (l : List Row) (i : Nat),
      (uploadGo f e b fuel l i).attempts = (chunksGo b fuel l i).map (fun c => c.1) := by
  intro fuel
  induction fuel with
  | zero => intro l i; cases l <;> simp [uploadGo_nil, chunksGo_nil, uploadGo, chunksGo]
  | succ fuel ih =>
    intro l i
    cases l with
    | nil => simp [uploadGo_nil, chunksGo_nil]
    | cons r rs =>
      simp only [uploadGo, chunksGo, List.map_cons]
      by_cases hf : f i <;> simp [hf, ih]

theorem uploadGo_errs_eq (f : Nat → Bool) (e : Nat → String) (b : Nat) :
    ∀ (fuel : Nat) (l : List Row) (i : Nat),
      (uploadGo f e b fuel l i).errs
        = ((uploadGo f e b fuel l i).attempts.filter f).map (fun j => (j, e j)) := by
  intro fuel
  induction fuel with
  | zero => intro l i; cases l <;> simp [uploadGo_nil, uploadGo]
  | succ fuel ih =>
    intro l i
    cases l with
    | nil => simp [uploadGo_nil]
    | cons r rs =>
      simp only [uploadGo]
      by_cases hf : f i
      · simp only [hf, if_true, List.filter_cons_of_pos, List.map_cons]
        simp [ih]
      · simp only [hf, if_false, Bool.false_eq_true, List.filter_cons_of_neg,
          not_false_iff]
        simp [ih]

theorem uploadGo_attempts_lb (f : Nat → Bool) (e : Nat → String) (b : Nat) :
    ∀ (fuel : Nat) (l : List Row) (i : Nat),
      ∀ j ∈ (uploadGo f e b fuel l i).attempts, i ≤ j := by
  intro fuel
  induction fuel with
  | zero => intro l i j hj; cases l <;> simp [uploadGo_nil, uploadGo] at hj
  | succ fuel ih =>
    intro l i j hj
    cases l with
    | nil => simp [uploadGo_nil] at hj
    | cons r rs =>
      simp only [uploadGo] at hj
      cases hf : f i <;> simp only [hf] at hj <;> simp at hj
      all_goals {
        rcases hj with hj | hj
        · omega
        · have := ih ((r :: rs).drop b) (i + b) j hj
          omega
      }

theorem uploadGo_attempts_pairwise (f : Nat → Bool) (e : Nat → String) (b : Nat)
    (hb : 1 ≤ b) :
    ∀ (fuel : Nat) (l : List Row) (i : Nat),
      List.Pairwise (fun x y => x < y) (uploadGo f e b fuel l i).attempts := by
  intro fuel
  induction fuel with
  | zero => intro l i; cases l <;> simp [uploadGo_nil, uploadGo]
  | succ fuel ih =>
    intro l i
    cases l with
    | nil => simp [uploadGo_nil]
    | cons r rs =>
      have hlb := uploadGo_attempts_lb f e b fuel ((r :: rs).drop b) (i + b)
      have htail := ih ((r :: rs).drop b) (i + b)
      simp only [uploadGo]
      cases hf : f i <;> simp [hf, List.pairwise_cons] <;>
        exact ⟨fun j hj => by have := hlb j hj; omega, htail⟩

theorem uploadGo_replicate_step (f : Nat → Bool) (e : Nat → String) (b : Nat) (r : Row)
    (fuel n i : Nat) (hn : n ≠ 0) :
    uploadGo f e b (fuel + 1) (List.replicate n r) i =
      if f i then
        ⟨(uploadGo f e b fuel (List.replicate (n - b) r) (i + b)).uploaded,
         (i, e i) :: (uploadGo f e b fuel (List.replicate (n - b) r) (i + b)).errs,
         i :: (uploadGo f e b fuel (List.replicate (n - b) r) (i + b)).attempts⟩
      else
        ⟨min b n + (uploadGo f e b fuel (List.replicate (n - b) r) (i + b)).uploaded,
         (uploadGo f e b fuel (List.replicate (n - b) r) (i + b)).errs,
         i :: (uploadGo f e b fuel (List.replicate (n - b) r) (i + b)).attempts⟩ := by
  obtain ⟨m, rfl⟩ : ∃ m, n = m + 1 := ⟨n - 1, by omega⟩
  rw [List.replicate_succ]
  simp only [uploadGo]
  rw [← List.replicate_succ, List.drop_replicate, List.take_replicate,
    List.length_replicate]

theorem upload_df2500_eval :
    upload_dataframe df2500 1000 failsSecond emsgBoom
      = ⟨2500, 1500, 1, [(1000, "boom")]⟩ := by
  have h2 : uploadGo failsSecond emsgBoom 1000 2498
      (List.replicate 500 (mkRow [("a", Value.vint 1)])) 2000 = ⟨500, [], [2000]⟩ := by
    rw [show (2498 : Nat) = 2497 + 1 from rfl,
      uploadGo_replicate_step _ _ _ _ _ _ _ (by norm_num),
      show (500 - 1000 : Nat) = 0 from rfl,
      show List.replicate 0 (mkRow [("a", Value.vint 1)]) = [] from rfl,
      uploadGo_nil]
    decide
  have h1 : uploadGo failsSecond emsgBoom 1000 2499
      (List.replicate 1500 (mkRow [("a", Value.vint 1)])) 1000
      = ⟨500, [(1000, "boom")], [1000, 2000]⟩ := by
    rw [show (2499 : Nat) = 2498 + 1 from rfl,
      uploadGo_replicate_step _ _ _ _ _ _ _ (by norm_num),
      show (1500 - 1000 : Nat) = 500 from rfl, h2]
    decide
  have h0 : uploadGo failsSecond emsgBoom 1000 2500
      (List.replicate 2500 (mkRow [("a", Value.vint 1)])) 0
      = ⟨1500, [(1000, "boom")], [0, 1000, 2000]⟩ := by
    rw [show (2500 : Nat) = 2499 + 1 from rfl,
      uploadGo_replicate_step _ _ _ _ _ _ _ (by norm_num),
      show (2500 - 1000 : Nat) = 1500 from rfl, h1]
    decide
  simp only [upload_dataframe, df2500, List.length_replicate, h0]
  rfl

/-- C1: for every input table, batch size at least 1, and per-chunk failure
pattern, the upload summary satisfies uploaded plus the total size of the
failed chunks equals the input row count, where the chunks partition the
rows in original order into consecutive runs of at most batch-size rows. -/
theorem upload_partition_conservation (df : DataFrame) (b : Nat)
    (fails : Nat → Bool) (emsg : Nat → String) (hb : 1 ≤ b) :
    (upload_dataframe df b fails emsg).uploaded
        + (((chunks df b).filter (fun c => fails c.1)).map (fun c => c.2.length)).sum
      = (upload_dataframe df b fails emsg).total_rows
    ∧ ((chunks df b).map (fun c => c.2)).flatten = df.rows
    ∧ ∀ c ∈ chunks df b, c.2.length ≤ b := by
  refine ⟨?_, ?_, ?_⟩
  · simpa only [upload_dataframe, chunks] using
      upload_sum_invariant fails emsg b hb df.rows.length df.rows 0 le_rfl
  · exact chunks_flatten_invariant b hb df.rows.length df.rows 0 le_rfl
  · exact chunks_size_invariant b df.rows.length df.rows 0

/-- C1 witness: uploading 2,500 rows with batch size 1000 where exactly the
second chunk (start offset 1000) fails yields uploaded 1500 and 1 error,
and instantiates the conservation statement. -/
theorem upload_partition_conservation_witness :
    ((1 : Nat) ≤ 1000
      ∧ ((upload_dataframe df2500 1000 failsSecond emsgBoom).uploaded
          + (((chunks df2500 1000).filter (fun c => failsSecond c.1)).map
              (fun c => c.2.length)).sum
         = (upload_dataframe df2500 1000 failsSecond emsgBoom).total_rows
        ∧ ((chunks df2500 1000).map (fun c => c.2)).flatten = df2500.rows
        ∧ ∀ c ∈ chunks df2500 1000, c.2.length ≤ 1000))
    ∧ (upload_dataframe df2500 1000 failsSecond emsgBoom).uploaded = 1500
    ∧ (upload_dataframe df2500 1000 failsSecond emsgBoom).errors = 1
    ∧ (upload_dataframe df2500 1000 failsSecond emsgBoom).total_rows = 2500 :=
  ⟨⟨by norm_num,
    upload_partition_conservation df2500 1000 failsSecond emsgBoom (by norm_num)⟩,
   by rw [upload_df2500_eval], by rw [upload_df2500_eval], by rw [upload_df2500_eval]⟩

/-- C2: a failed chunk does not abort the run: every chunk is attempted
exactly once in sequential (strictly increasing, hence retry-free) order,
each failed chunk contributes the pair of its start offset and error
message to the returned error list, and the errors count is the number of
failed chunks. -/
theorem upload_error_per_chunk (df : DataFrame) (b : Nat) (fails : Nat → Bool)
    (emsg : Nat → String) (hb : 1 ≤ b) :
    uploadAttempts df b fails emsg = (chunks df b).map (fun c => c.1)
    ∧ List.Pairwise (fun x y => x < y) (uploadAttempts df b fails emsg)
    ∧ (upload_dataframe df b fails emsg).error_details
        = ((uploadAttempts df b fails emsg).filter fails).map (fun j => (j, emsg j))
    ∧ (upload_dataframe df b fails emsg).errors
        = ((uploadAttempts df b fails emsg).filter fails).length := by
  refine ⟨?_, ?_, ?_, ?_⟩
  · exact uploadGo_attempts_eq fails emsg b df.rows.length df.rows 0
  · exact uploadGo_attempts_pairwise fails emsg b hb df.rows.length df.rows 0
  · simpa only [upload_dataframe, uploadAttempts] using
      uploadGo_errs_eq fails emsg b df.rows.length df.rows 0
  · have h := uploadGo_errs_eq fails emsg b df.rows.length df.rows 0
    simp only [upload_dataframe, uploadAttempts, h, List.length_map]

/-- C2 witness: five rows with batch size 2 and the chunk at offset 2
failing: chunks at offsets 0, 2, 4 are each attempted once in order, the
error list is exactly the failed pair, and the error count is 1. -/
theorem upload_error_per_chunk_witness :
    ((1 : Nat) ≤ 2
      ∧ (uploadAttempts dfFive 2 failsAt2 emsgBad = (chunks dfFive 2).map (fun c => c.1)
        ∧ List.Pairwise (fun x y => x < y) (uploadAttempts dfFive 2 failsAt2 emsgBad)
        ∧ (upload_dataframe dfFive 2 failsAt2 emsgBad).error_details
            = ((uploadAttempts dfFive 2 failsAt2 emsgBad).filter failsAt2).map
                (fun j => (j, emsgBad j))
        ∧ (upload_dataframe dfFive 2 failsAt2 emsgBad).errors
            = ((uploadAttempts dfFive 2 failsAt2 emsgBad).filter failsAt2).length))
    ∧ uploadAttempts dfFive 2 failsAt2 emsgBad = [0, 2, 4]
    ∧ (upload_dataframe dfFive 2 failsAt2 emsgBad).error_details = [(2, "bad")]
    ∧ (upload_dataframe dfFive 2 failsAt2 emsgBad).errors = 1
    ∧ (upload_dataframe dfFive 2 failsAt2 emsgBad).uploaded = 3 :=
  ⟨⟨by norm_num, upload_error_per_chunk dfFive 2 failsAt2 emsgBad (by norm_num)⟩,
   by decide, by decide, by decide, by decide⟩

/-- C7: the Int32 cast used by the mappers is total: a value with no
numeric reading (or a null) casts to null, an out-of-range numeric value
casts to null, and an in-range numeric value is preserved. -/
theorem cast_int32_total (v : Value) :
    (toNumeric v = none → castInt32 v = Value.vnull)
    ∧ ∀ n : Int, toNumeric v = some n →
        castInt32 v = if -2147483648 ≤ n ∧ n < 2147483648 then Value.vint n
          else Value.vnull := by
  cases v with
  | vnull => simp [toNumeric, castInt32]
  | vint n =>
    refine ⟨by simp [toNumeric], fun m hm => ?_⟩
    simp only [toNumeric, Option.some.injEq] at hm
    subst hm
    simp [castInt32]
  | vstr s =>
    cases hs : strToInt? s with
    | none => simp [toNumeric, castInt32, hs]
    | some n =>
      refine ⟨by simp [toNumeric, hs], fun m hm => ?_⟩
      simp only [toNumeric, hs, Option.some.injEq] at hm
      subst hm
      simp [castInt32, hs]

/-- C7 witness: concrete cast evaluations obtained from the totality
statement: 5 is preserved, 2^31 and a non-numeric string become null. -/
theorem cast_int32_total_witness :
    castInt32 (Value.vint 5) = Value.vint 5
    ∧ castInt32 (Value.vint 2147483648) = Value.vnull
    ∧ castInt32 (Value.vstr "17") = Value.vint 17
    ∧ castInt32 (Value.vstr "abc") = Value.vnull
    ∧ castInt32 Value.vnull = Value.vnull := by
  refine ⟨?_, ?_, ?_, ?_, ?_⟩
  · exact ((cast_int32_total (Value.vint 5)).2 5 (by decide)).trans (by decide)
  · exact ((cast_int32_total (Value.vint 2147483648)).2 2147483648 (by decide)).trans
      (by decide)
  · exact ((cast_int32_total (Value.vstr "17")).2 17 (by decide)).trans (by decide)
  · exact (cast_int32_total (Value.vstr "abc")).1 (by decide)
  · exact (cast_int32_total Value.vnull).1 (by decide)

/-- C8: querying with an absent or empty filter mapping returns all rows;
any filter mapping returns exactly the rows satisfying every column=value
equality (logical AND); when nothing matches the result is the empty table
rather than an error. -/
theorem query_equality_filters (t : RemoteTable) :
    (query t none).rows = t.rows
    ∧ (query t (some [])).rows = t.rows
    ∧ (∀ fs, (query t (some fs)).rows = t.rows.filter (matchesFilters fs))
    ∧ (∀ fs r, matchesFilters fs r = true ↔ ∀ p ∈ fs, r p.1 = p.2)
    ∧ ∀ fs, (∀ r ∈ t.rows, matchesFilters fs r = false) →
        (query t (some fs)).rows = [] := by
  have hall : ∀ fs, (query t (some fs)).rows = t.rows.filter (matchesFilters fs) := by
    intro fs
    cases fs with
    | nil => simp [query, remoteSelect, matchesFilters]
    | cons p ps => simp [query, remoteSelect]
  refine ⟨?_, ?_, hall, ?_, ?_⟩
  · simp [query, remoteSelect, matchesFilters]
  · simp [query, remoteSelect, matchesFilters]
  · intro fs r
    simp [matchesFilters, List.all_eq_true]
  · intro fs hf
    rw [hall fs]
    exact List.filter_eq_nil_iff.mpr (fun r hr => by simp [hf r hr])

/-- C8 witness: on a concrete three-row table, no filters returns all rows,
an AND of two equality filters narrows to one row, and a filter matching
nothing returns the empty table. -/
theorem query_equality_filters_witness :
    (query remoteWitTable none).rows = remoteWitTable.rows
    ∧ (query remoteWitTable (some [("team", Value.vstr "KC")])).rows.length = 2
    ∧ (query remoteWitTable
        (some [("team", Value.vstr "KC"), ("season", Value.vint 2024)])).rows.length = 1
    ∧ (query remoteWitTable (some [("team", Value.vstr "DAL")])).rows = [] :=
  ⟨(query_equality_filters remoteWitTable).1, by decide, by decide,
   (query_equality_filters remoteWitTable).2.2.2.2 _ (by decide)⟩

/-- C10: calling `TeamDataLoader.prepare_for_upload` with a data_type
outside stats/rosters/schedules/info returns the input table unchanged. -/
theorem teamPrepare_unknown_type (df : DataFrame) (t : String)
    (h : t ∉ ["stats", "rosters", "schedules", "info"]) :
    teamPrepare df t = Except.ok df := by
  simp only [List.mem_cons, List.not_mem_nil, or_false, not_or] at h
  obtain ⟨h1, h2, h3, h4⟩ := h
  simp [teamPrepare, h1, h2, h3, h4]

/-- C10 witness: the unknown data_type `pbp` leaves a concrete table
untouched. -/
theorem teamPrepare_unknown_type_witness :
    teamPrepare unknownTypeDf "pbp" = Except.ok unknownTypeDf :=
  teamPrepare_unknown_type unknownTypeDf "pbp" (by decide)

/-- C3 counterexample: for team stats the derived `total_yards` column
appears in the output without being an input column, and for schedules an
input already named `game_date` is dropped although it lies in the
destination schema; both refute the claimed column-set identity. -/
theorem mapper_colset_cex :
    ("total_yards" ∈ exceptColsList (teamPrepare statsColsCexDf "stats")
      ∧ "total_yards" ∉ availableCols teamStatsSchemaColumns statsColsCexDf.cols)
    ∧ ("game_date" ∉ exceptColsList (teamPrepare schedGameDateDf "schedules")
      ∧ "game_date" ∈ availableCols destSchedulesColumns
          (schedulesColsAfterRename schedGameDateDf.cols)) := by
  decide

/-- C4 counterexample: reapplying the schedules mapping drops the renamed
`game_date` column, and reapplying the stats mapping recomputes
`total_yards` from the already-cast (nulled) columns, changing the result. -/
theorem mapper_idempotence_cex :
    exceptToCells ((teamPrepare schedCexDf "schedules").bind
        (fun d => teamPrepare d "schedules"))
      ≠ exceptToCells (teamPrepare schedCexDf "schedules")
    ∧ exceptToCells ((teamPrepare statsCexDf "stats").bind
        (fun d => teamPrepare d "stats"))
      ≠ exceptToCells (teamPrepare statsCexDf "stats") := by
  decide

/-- C5 counterexample: a team-stats input containing both `opponent_team`
and `opponent`, or both `passing_interceptions` and `interceptions`, makes
the corresponding unguarded rename raise a duplicate-column error, so the
rename step is not a no-op there. -/
theorem rename_noop_cex :
    isOkDF (teamPrepare dupStatsDf "stats") = false
    ∧ isOkDF (teamPrepare dupIntDf "stats") = false := by
  decide

/-- C9 counterexample: with passing_yards = 2^31 (out of Int32 range) and
rushing_yards = 5, the mapped `total_yards` is null, not the sum of the two
columns with nulls treated as 0. -/
theorem team_totals_cex :
    exceptColValues "total_yards" (teamPrepare statsOverflowDf "stats") = [Value.vnull]
    ∧ exceptColValues "total_yards" (teamPrepare statsOverflowDf "stats")
        ≠ [addV (fill0 (Value.vint 2147483648)) (fill0 (Value.vint 5))] := by
  decide

/-! Structural lemmas about the table operations. -/

theorem select_cols (cs : List String) (df : DataFrame) : (select cs df).cols = cs := rfl

theorem select_rows (cs : List String) (df : DataFrame) : (select cs df).rows = df.rows := rfl

theorem filterRows_cols (p : Row → Bool) (df : DataFrame) :
    (filterRows p df).cols = df.cols := rfl

theorem filterRows_rows (p : Row → Bool) (df : DataFrame) :
    (filterRows p df).rows = df.rows.filter p := rfl

theorem withColumn_cols_of_mem (c : String) (f : Row → Value) (df : DataFrame)
    (h : c ∈ df.cols) : (withColumn c f df).cols = df.cols := by
  simp [withColumn, h]

theorem withColumn_cols_of_not_mem (c : String) (f : Row → Value) (df : DataFrame)
    (h : c ∉ df.cols) : (withColumn c f df).cols = df.cols ++ [c] := by
  simp [withColumn, h]

theorem withColumn_rows (c : String) (f : Row → Value) (df : DataFrame) :
    (withColumn c f df).rows
      = df.rows.map (fun r => fun c2 => if c2 = c then f r else r c2) := rfl

theorem mem_withColumn_cols (c c2 : String) (f : Row → Value) (df : DataFrame)
    (h : c2 ∈ df.cols) : c2 ∈ (withColumn c f df).cols := by
  by_cases hc : c ∈ df.cols
  · rw [withColumn_cols_of_mem _ _ _ hc]; exact h
  · rw [withColumn_cols_of_not_mem _ _ _ hc]; exact List.mem_append_left _ h

theorem renameStep_of_not_mem (old new : String) (df : DataFrame)
    (h : old ∉ df.cols) : renameStep old new df = Except.ok df := by
  simp [renameStep, h]

theorem renameStep_ok (old new : String) (df : DataFrame)
    (h1 : old ∈ df.cols) (h2 : new ∉ df.cols) :
    renameStep old new df
      = Except.ok ⟨df.cols.map (fun c => if c = old then new else c),
                   df.rows.map (fun r => fun c => if c = new then r old else r c)⟩ := by
  have : ¬(new ≠ old ∧ new ∈ df.cols) := fun hc => h2 hc.2
  simp [renameStep, renameCol, h1, this]

theorem renameStep_dup (old new : String) (df : DataFrame)
    (h1 : old ∈ df.cols) (h2 : new ∈ df.cols) (h3 : new ≠ old) :
    renameStep old new df = Except.error ("duplicate column name " ++ new) := by
  simp [renameStep, renameCol, h1, h2, h3]

theorem castInt32_idem (v : Value) : castInt32 (castInt32 v) = castInt32 v := by
  cases v with
  | vnull => rfl
  | vint n =>
    by_cases h : -2147483648 ≤ n ∧ n < 2147483648 <;> simp [castInt32, h]
  | vstr s =>
    cases hs : strToInt? s with
    | none => simp [castInt32, hs]
    | some n =>
      by_cases h : -2147483648 ≤ n ∧ n < 2147483648 <;> simp [castInt32, hs, h]

theorem castStr_idem (v : Value) : castStr (castStr v) = castStr v := by
  cases v <;> rfl

theorem castCols_cons (c : String) (cs : List String) (df : DataFrame) :
    castCols (c :: cs) df
      = castCols cs (if c ∈ df.cols then
          withColumn c (fun r => castInt32 (r c)) df else df) := rfl

theorem castCols_cols (cs : List String) (df : DataFrame) :
    (castCols cs df).cols = df.cols := by
  induction cs generalizing df with
  | nil => rfl
  | cons c cs ih =>
    rw [castCols_cons]
    by_cases h : c ∈ df.cols
    · rw [if_pos h, ih, withColumn_cols_of_mem _ _ _ h]
    · rw [if_neg h, ih]

theorem castCols_rows (cs : List String) (df : DataFrame) :
    (castCols cs df).rows = df.rows.map (castRowFun cs df.cols) := by
  induction cs generalizing df with
  | nil =>
    have hid : castRowFun [] df.cols = fun r => r := by
      funext r c
      simp [castRowFun]
    rw [hid]
    simp [castCols]
  | cons c cs ih =>
    rw [castCols_cons]
    by_cases h : c ∈ df.cols
    · rw [if_pos h, ih, withColumn_cols_of_mem _ _ _ h, withColumn_rows, List.map_map]
      apply List.map_congr_left
      intro r _
      funext c2
      by_cases h2 : c2 = c
      · subst h2
        by_cases h3 : c2 ∈ cs <;>
          simp [castRowFun, Function.comp, h, h3, castInt32_idem]
      · by_cases h3 : c2 ∈ cs <;> by_cases h4 : c2 ∈ df.cols <;>
          simp [castRowFun, Function.comp, h2, h3, h4]
    · rw [if_neg h, ih]
      apply List.map_congr_left
      intro r _
      funext c2
      by_cases h2 : c2 = c
      · subst h2
        simp [castRowFun, h]
      · by_cases h3 : c2 ∈ cs <;> by_cases h4 : c2 ∈ df.cols <;>
          simp [castRowFun, h2, h3, h4]

theorem castCols_rows_length (cs : List String) (df : DataFrame) :
    (castCols cs df).rows.length = df.rows.length := by
  rw [castCols_rows, List.length_map]

theorem castRowFun_at (cs cols : List String) (r : Row) (c : String) :
    castRowFun cs cols r c
      = if c ∈ cs ∧ c ∈ cols then castInt32 (r c) else r c := rfl

theorem mem_availableCols (s cols : List String) (c : String) :
    c ∈ availableCols s cols ↔ c ∈ s ∧ c ∈ cols := by
  simp [availableCols]

theorem availableCols_idem (s cols : List String) :
    availableCols s (availableCols s cols) = availableCols s cols := by
  unfold availableCols
  apply List.filter_congr
  intro c hc
  simp only [decide_eq_decide, List.mem_filter, decide_eq_true_eq]
  exact ⟨fun h => h.2, fun h => ⟨hc, h⟩⟩

theorem grid_eq (cols : List String) (rs1 rs2 : List Row)
    (hl : rs1.length = rs2.length)
    (hv : ∀ c ∈ cols, rs1.map (fun r => r c) = rs2.map (fun r => r c)) :
    rs1.map (fun r => cols.map r) = rs2.map (fun r => cols.map r) := by
  induction rs1 generalizing rs2 with
  | nil =>
    have : rs2 = [] := List.length_eq_zero.mp (by simpa using hl.symm)
    subst this
    rfl
  | cons r rs ih =>
    cases rs2 with
    | nil => simp at hl
    | cons r2 rs2 =>
      have hhead : ∀ c ∈ cols, r c = r2 c := by
        intro c hcm
        have := hv c hcm
        simpa using (List.cons.injEq _ _ _ _ ▸ this).1
      have htail : ∀ c ∈ cols, rs.map (fun x => x c) = rs2.map (fun x => x c) := by
        intro c hcm
        have := hv c hcm
        simpa using (List.cons.injEq _ _ _ _ ▸ this).2
      simp only [List.map_cons, List.cons.injEq]
      exact ⟨List.map_congr_left hhead, ih rs2 (by simpa using hl) htail⟩

theorem toCells_eq_of (a b : DataFrame) (hc : a.cols = b.cols)
    (hl : a.rows.length = b.rows.length)
    (hv : ∀ c ∈ a.cols, colValues c a = colValues c b) :
    toCells a = toCells b := by
  unfold toCells
  rw [Prod.mk.injEq]
  refine ⟨hc, ?_⟩
  rw [← hc]
  exact grid_eq a.cols a.rows b.rows hl hv

/-! Lemmas about renames and the success shapes of the mappers. -/

theorem ok_bind {α β : Type} (x : α) (f : α → Except String β) :
    (Except.ok x).bind f = f x := rfl

theorem renameStep_eq_ok (old new : String) (df df2 : DataFrame)
    (h : renameStep old new df = Except.ok df2) : df2 = renameStepF old new df := by
  by_cases hm : old ∈ df.cols
  · by_cases hd : new ≠ old ∧ new ∈ df.cols
    · rw [renameStep, if_pos hm, renameCol, if_pos hm, if_pos hd] at h
      cases h
    · rw [renameStep, if_pos hm, renameCol, if_pos hm, if_neg hd] at h
      injection h with h
      rw [renameStepF, if_pos hm, renamedF]
      exact h.symm
  · rw [renameStep, if_neg hm] at h
    injection h with h
    rw [renameStepF, if_neg hm]
    exact h.symm

theorem renameStep_ok_of_not_dup (old new : String) (df : DataFrame)
    (h : ¬(new ≠ old ∧ new ∈ df.cols)) :
    renameStep old new df = Except.ok (renameStepF old new df) := by
  by_cases hm : old ∈ df.cols
  · rw [renameStep, if_pos hm, renameCol, if_pos hm, if_neg h, renameStepF,
      if_pos hm, renamedF]
  · rw [renameStep, if_neg hm, renameStepF, if_neg hm]

theorem renameStepF_cols (old new : String) (df : DataFrame) :
    (renameStepF old new df).cols = renameColsIf old new df.cols := by
  rw [renameStepF, renameColsIf]
  by_cases hm : old ∈ df.cols <;> simp [hm, renamedF, substCol]

theorem renameStepF_rows_length (old new : String) (df : DataFrame) :
    (renameStepF old new df).rows.length = df.rows.length := by
  rw [renameStepF]
  by_cases hm : old ∈ df.cols <;> simp [hm, renamedF]

theorem renameStepF_colValues_other (old new c : String) (df : DataFrame)
    (h : c ≠ new) : colValues c (renameStepF old new df) = colValues c df := by
  rw [renameStepF]
  by_cases hm : old ∈ df.cols <;> simp [hm, renamedF, colValues, h]

theorem renameStepF_colValues_new (old new : String) (df : DataFrame)
    (hold : old ∈ df.cols) :
    colValues new (renameStepF old new df) = colValues old df := by
  rw [renameStepF, if_pos hold]
  simp [renamedF, colValues]

theorem withColumn_rows_length (c : String) (f : Row → Value) (df : DataFrame) :
    (withColumn c f df).rows.length = df.rows.length := by
  rw [withColumn_rows, List.length_map]

theorem withColumn_colValues_self (c : String) (f : Row → Value) (df : DataFrame) :
    colValues c (withColumn c f df) = df.rows.map f := by
  simp [withColumn_rows, colValues]

theorem withColumn_colValues_other (c c2 : String) (f : Row → Value) (df : DataFrame)
    (h : c2 ≠ c) : colValues c2 (withColumn c f df) = colValues c2 df := by
  simp [withColumn_rows, colValues, h]

theorem select_colValues (cs : List String) (c : String) (df : DataFrame) :
    colValues c (select cs df) = colValues c df := rfl

theorem castCols_colValues_not_mem (cs : List String) (c : String) (df : DataFrame)
    (h : c ∉ cs) : colValues c (castCols cs df) = colValues c df := by
  rw [colValues, castCols_rows, List.map_map]
  apply List.map_congr_left
  intro r _
  simp [Function.comp, castRowFun_at, h]

theorem castCols_colValues_mem (cs : List String) (c : String) (df : DataFrame)
    (h : c ∈ cs) (h2 : c ∈ df.cols) :
    colValues c (castCols cs df) = (colValues c df).map castInt32 := by
  rw [colValues, castCols_rows, List.map_map, colValues, List.map_map]
  apply List.map_congr_left
  intro r _
  simp [Function.comp, castRowFun_at, h, h2]

theorem isOkDF_exists (x : Except String DataFrame) (h : isOkDF x = true) :
    ∃ d, x = Except.ok d := by
  cases x with
  | ok d => exact ⟨d, rfl⟩
  | error e => simp [isOkDF] at h

theorem teamPrepare_schedules_eq (df : DataFrame) :
    teamPrepare df "schedules" = prepSchedules df := rfl

theorem teamPrepare_rosters_eq (df : DataFrame) :
    teamPrepare df "rosters" = prepRosters df := by
  simp [teamPrepare]

theorem teamPrepare_info_eq (df : DataFrame) :
    teamPrepare df "info" = prepInfo df := by
  simp [teamPrepare]

theorem teamPrepare_stats_eq (df : DataFrame) :
    teamPrepare df "stats" = prepStats df := by
  simp [teamPrepare]

theorem prepRosters_ok_elim (df out : DataFrame)
    (h : prepRosters df = Except.ok out) : out = rostersBody df := by
  rw [prepRosters] at h
  rw [show (if "gsis_id" ∈ df.cols then
      filterRows (fun r => r "gsis_id" != Value.vnull) df else df) = rostersFiltered df
    from rfl] at h
  rw [show (if "birth_date" ∈ (rostersFiltered df).cols then
      withColumn "birth_date" (fun r => castStr (r "birth_date")) (rostersFiltered df)
      else rostersFiltered df) = rostersDated df from rfl] at h
  cases h1 : renameStep "gsis_id" "player_id" (rostersDated df) with
  | error e => rw [h1] at h; cases h
  | ok df2 =>
    rw [h1] at h
    simp only [ok_bind] at h
    cases h2 : renameStep "full_name" "player_name" df2 with
    | error e => rw [h2] at h; cases h
    | ok df3 =>
      rw [h2] at h
      injection h with h
      rw [← h, rostersBody, ← renameStep_eq_ok _ _ _ _ h1,
        ← renameStep_eq_ok _ _ _ _ h2]

theorem prepStats_eq_bind (df : DataFrame) :
    prepStats df = (renameStep "opponent_team" "opponent" (statsDerived df)).bind
      (fun df3 => (renameStep "passing_interceptions" "interceptions" df3).bind
        (fun df4 => Except.ok (castCols teamStatsIntColumns
          (select (availableCols teamStatsSchemaColumns df4.cols) df4)))) := rfl

theorem prepStats_ok_elim (df out : DataFrame)
    (h : prepStats df = Except.ok out) : out = statsBody df := by
  rw [prepStats_eq_bind] at h
  cases h1 : renameStep "opponent_team" "opponent" (statsDerived df) with
  | error e => rw [h1] at h; cases h
  | ok df3 =>
    rw [h1] at h
    simp only [ok_bind] at h
    cases h2 : renameStep "passing_interceptions" "interceptions" df3 with
    | error e => rw [h2] at h; cases h
    | ok df4 =>
      rw [h2] at h
      simp only [ok_bind, Except.ok.injEq] at h
      rw [← h, statsBody, ← renameStep_eq_ok _ _ _ _ h1,
        ← renameStep_eq_ok _ _ _ _ h2]

theorem prepSchedules_ok_elim (df out : DataFrame)
    (h : prepSchedules df = Except.ok out) : out = schedulesBody df := by
  rw [prepSchedules] at h
  cases h1 : renameStep "gameday" "game_date"
      (select (availableCols schedulesSchemaColumns df.cols) df) with
  | error e => rw [h1] at h; cases h
  | ok df2 =>
    rw [h1] at h
    injection h with h
    rw [← h, schedulesBody, ← renameStep_eq_ok _ _ _ _ h1]

theorem playerPrepare_eq (df : DataFrame) :
    playerPrepare df = Except.ok (playerBody df) := by
  rw [playerPrepare]
  rw [show (if "player_id" ∈ df.cols then
      filterRows (fun r => r "player_id" != Value.vnull) df else df)
    = playerFiltered df from rfl]
  by_cases hg : "passing_interceptions" ∈ (playerFiltered df).cols
      ∧ "interceptions" ∉ (playerFiltered df).cols
  · rw [if_pos hg, renameCol, if_pos hg.1, if_neg (fun hc => hg.2 hc.2)]
    rw [playerBody, playerRenamed, if_pos hg, renamedF]
    rfl
  · rw [if_neg hg, playerBody, playerRenamed, if_neg hg]
    rfl

theorem playerInfoPrepare_ok_elim (df out : DataFrame)
    (h : playerInfoPrepare df = Except.ok out) : out = playerInfoBody df := by
  rw [playerInfoPrepare] at h
  rw [show (if "gsis_id" ∈ df.cols then
      filterRows (fun r => r "gsis_id" != Value.vnull) df else df)
    = playerInfoFiltered df from rfl] at h
  rw [show (if "gsis_id" ∈ (playerInfoFiltered df).cols then
      withColumn "player_id" (fun r => r "gsis_id") (playerInfoFiltered df)
      else playerInfoFiltered df) = playerInfoWithId df from rfl] at h
  cases h1 : renameStep "display_name" "player_name" (playerInfoWithId df) with
  | error e => rw [h1] at h; cases h
  | ok df2 =>
    rw [h1] at h
    simp only [ok_bind, Except.ok.injEq] at h
    rw [← h, playerInfoBody, ← renameStep_eq_ok _ _ _ _ h1]

/-! Per-mapper computation lemmas. -/

theorem rostersFiltered_cols (df : DataFrame) : (rostersFiltered df).cols = df.cols := by
  rw [rostersFiltered]
  by_cases h : "gsis_id" ∈ df.cols <;> simp [h, filterRows_cols]

theorem rostersDated_cols (df : DataFrame) :
    (rostersDated df).cols = (rostersFiltered df).cols := by
  rw [rostersDated]
  by_cases h : "birth_date" ∈ (rostersFiltered df).cols <;>
    simp [h, withColumn_cols_of_mem]

theorem rostersDated_rows_length (df : DataFrame) :
    (rostersDated df).rows.length = (rostersFiltered df).rows.length := by
  rw [rostersDated]
  by_cases h : "birth_date" ∈ (rostersFiltered df).cols <;>
    simp [h, withColumn_rows_length]

theorem rostersDated_colValues_other (df : DataFrame) (c : String)
    (h : c ≠ "birth_date") :
    colValues c (rostersDated df) = colValues c (rostersFiltered df) := by
  rw [rostersDated]
  by_cases hb : "birth_date" ∈ (rostersFiltered df).cols <;>
    simp [hb, withColumn_colValues_other _ _ _ _ h]

theorem rostersFiltered_of_mem (df : DataFrame) (hg : "gsis_id" ∈ df.cols) :
    rostersFiltered df = filterRows (fun r => r "gsis_id" != Value.vnull) df := by
  rw [rostersFiltered, if_pos hg]

theorem colValues_filterRows (p : Row → Bool) (c : String) (df : DataFrame) :
    colValues c (filterRows p df) = (df.rows.filter p).map (fun r => r c) := rfl

theorem rostersBody_rows_length (df : DataFrame) :
    (rostersBody df).rows.length = (rostersFiltered df).rows.length := by
  rw [rostersBody, castCols_rows_length]
  rw [show (select (availableCols rostersSchemaColumns
      (renameStepF "full_name" "player_name"
        (renameStepF "gsis_id" "player_id" (rostersDated df))).cols)
      (renameStepF "full_name" "player_name"
        (renameStepF "gsis_id" "player_id" (rostersDated df)))).rows
    = (renameStepF "full_name" "player_name"
        (renameStepF "gsis_id" "player_id" (rostersDated df))).rows from rfl]
  rw [renameStepF_rows_length, renameStepF_rows_length, rostersDated_rows_length]

theorem rostersBody_player_id_values (df : DataFrame) (hg : "gsis_id" ∈ df.cols) :
    colValues "player_id" (rostersBody df)
      = colValues "gsis_id" (rostersFiltered df) := by
  rw [rostersBody]
  rw [castCols_colValues_not_mem _ _ _ (by decide), select_colValues,
    renameStepF_colValues_other _ _ _ _ (by decide),
    renameStepF_colValues_new _ _ _ (by rw [rostersDated_cols, rostersFiltered_cols]; exact hg),
    rostersDated_colValues_other _ _ (by decide)]

theorem playerInfoFiltered_cols (df : DataFrame) :
    (playerInfoFiltered df).cols = df.cols := by
  rw [playerInfoFiltered]
  by_cases h : "gsis_id" ∈ df.cols <;> simp [h, filterRows_cols]

theorem playerInfoFiltered_of_mem (df : DataFrame) (hg : "gsis_id" ∈ df.cols) :
    playerInfoFiltered df = filterRows (fun r => r "gsis_id" != Value.vnull) df := by
  rw [playerInfoFiltered, if_pos hg]

theorem playerInfoWithId_rows_length (df : DataFrame) :
    (playerInfoWithId df).rows.length = (playerInfoFiltered df).rows.length := by
  rw [playerInfoWithId]
  by_cases h : "gsis_id" ∈ (playerInfoFiltered df).cols <;>
    simp [h, withColumn_rows_length]

theorem playerInfoWithId_player_id_values (df : DataFrame) (hg : "gsis_id" ∈ df.cols) :
    colValues "player_id" (playerInfoWithId df)
      = (playerInfoFiltered df).rows.map (fun r => r "gsis_id") := by
  rw [playerInfoWithId, if_pos (by rw [playerInfoFiltered_cols]; exact hg),
    withColumn_colValues_self]

theorem playerInfoBody_rows_length (df : DataFrame) :
    (playerInfoBody df).rows.length = (playerInfoFiltered df).rows.length := by
  rw [playerInfoBody]
  set mid := castCols playerInfoIntColumns
    (select (availableCols playerInfoSchemaColumns
      (renameStepF "display_name" "player_name" (playerInfoWithId df)).cols)
      (renameStepF "display_name" "player_name" (playerInfoWithId df))) with hmid
  have hmlen : mid.rows.length = (playerInfoFiltered df).rows.length := by
    rw [hmid, castCols_rows_length]
    rw [show (select (availableCols playerInfoSchemaColumns
        (renameStepF "display_name" "player_name" (playerInfoWithId df)).cols)
        (renameStepF "display_name" "player_name" (playerInfoWithId df))).rows
      = (renameStepF "display_name" "player_name" (playerInfoWithId df)).rows from rfl]
    rw [renameStepF_rows_length, playerInfoWithId_rows_length]
  by_cases h : "birth_date" ∈ mid.cols <;> simp [h, withColumn_rows_length, hmlen]

theorem playerInfoBody_player_id_values (df : DataFrame) (hg : "gsis_id" ∈ df.cols) :
    colValues "player_id" (playerInfoBody df)
      = (playerInfoFiltered df).rows.map (fun r => r "gsis_id") := by
  rw [playerInfoBody]
  set mid := castCols playerInfoIntColumns
    (select (availableCols playerInfoSchemaColumns
      (renameStepF "display_name" "player_name" (playerInfoWithId df)).cols)
      (renameStepF "display_name" "player_name" (playerInfoWithId df))) with hmid
  have hmv : colValues "player_id" mid
      = (playerInfoFiltered df).rows.map (fun r => r "gsis_id") := by
    rw [hmid, castCols_colValues_not_mem _ _ _ (by decide), select_colValues,
      renameStepF_colValues_other _ _ _ _ (by decide),
      playerInfoWithId_player_id_values df hg]
  by_cases h : "birth_date" ∈ mid.cols <;>
    simp [h, withColumn_colValues_other _ _ _ _ (by decide : ("player_id" : String) ≠ "birth_date"), hmv]

theorem playerFiltered_cols (df : DataFrame) : (playerFiltered df).cols = df.cols := by
  rw [playerFiltered]
  by_cases h : "player_id" ∈ df.cols <;> simp [h, filterRows_cols]

theorem playerFiltered_of_mem (df : DataFrame) (hp : "player_id" ∈ df.cols) :
    playerFiltered df = filterRows (fun r => r "player_id" != Value.vnull) df := by
  rw [playerFiltered, if_pos hp]

theorem playerRenamed_rows_length (df : DataFrame) :
    (playerRenamed df).rows.length = (playerFiltered df).rows.length := by
  rw [playerRenamed]
  by_cases h : "passing_interceptions" ∈ (playerFiltered df).cols
      ∧ "interceptions" ∉ (playerFiltered df).cols <;>
    simp [h, renamedF]

theorem playerRenamed_colValues_other (df : DataFrame) (c : String)
    (h : c ≠ "interceptions") :
    colValues c (playerRenamed df) = colValues c (playerFiltered df) := by
  rw [playerRenamed]
  by_cases hg : "passing_interceptions" ∈ (playerFiltered df).cols
      ∧ "interceptions" ∉ (playerFiltered df).cols <;>
    simp [hg, renamedF, colValues, h]

theorem playerBody_rows_length (df : DataFrame) :
    (playerBody df).rows.length = (playerFiltered df).rows.length := by
  rw [playerBody, castCols_rows_length]
  rw [show (select (availableCols playerSchemaColumns (playerRenamed df).cols)
      (playerRenamed df)).rows = (playerRenamed df).rows from rfl]
  rw [playerRenamed_rows_length]

theorem playerBody_player_id_values (df : DataFrame) :
    colValues "player_id" (playerBody df)
      = colValues "player_id" (playerFiltered df) := by
  rw [playerBody, castCols_colValues_not_mem _ _ _ (by decide), select_colValues,
    playerRenamed_colValues_other _ _ (by decide)]

/-- C6: rows whose primary-key source column (`gsis_id` for rosters and
player info, `player_id` for player stats) is null are dropped before any
renaming, and all other rows are kept in order: the output row count equals
the count of non-null-key input rows, and the output `player_id` column is
exactly the key values of the surviving rows. -/
theorem null_pk_rows_dropped (df : DataFrame) :
    ("gsis_id" ∈ df.cols → isOkDF (teamPrepare df "rosters") = true →
      exceptRowCount (teamPrepare df "rosters")
          = (df.rows.filter (fun r => r "gsis_id" != Value.vnull)).length
        ∧ exceptColValues "player_id" (teamPrepare df "rosters")
          = (df.rows.filter (fun r => r "gsis_id" != Value.vnull)).map
              (fun r => r "gsis_id"))
    ∧ ("gsis_id" ∈ df.cols → isOkDF (playerInfoPrepare df) = true →
      exceptRowCount (playerInfoPrepare df)
          = (df.rows.filter (fun r => r "gsis_id" != Value.vnull)).length
        ∧ exceptColValues "player_id" (playerInfoPrepare df)
          = (df.rows.filter (fun r => r "gsis_id" != Value.vnull)).map
              (fun r => r "gsis_id"))
    ∧ ("player_id" ∈ df.cols →
      exceptRowCount (playerPrepare df)
          = (df.rows.filter (fun r => r "player_id" != Value.vnull)).length
        ∧ exceptColValues "player_id" (playerPrepare df)
          = (df.rows.filter (fun r => r "player_id" != Value.vnull)).map
              (fun r => r "player_id")) := by
  refine ⟨?_, ?_, ?_⟩
  · intro hg hok
    obtain ⟨out, hout⟩ := isOkDF_exists _ (by rwa [teamPrepare_rosters_eq] at hok)
    have hbody := prepRosters_ok_elim df out hout
    subst hbody
    rw [teamPrepare_rosters_eq, hout]
    refine ⟨?_, ?_⟩
    · show (rostersBody df).rows.length = _
      rw [rostersBody_rows_length, rostersFiltered_of_mem df hg, filterRows_rows]
    · show colValues "player_id" (rostersBody df) = _
      rw [rostersBody_player_id_values df hg, rostersFiltered_of_mem df hg,
        colValues_filterRows]
  · intro hg hok
    obtain ⟨out, hout⟩ := isOkDF_exists _ hok
    have hbody := playerInfoPrepare_ok_elim df out hout
    rw [hbody] at hout
    rw [hout]
    refine ⟨?_, ?_⟩
    · show (playerInfoBody df).rows.length = _
      rw [playerInfoBody_rows_length, playerInfoFiltered_of_mem df hg, filterRows_rows]
    · show colValues "player_id" (playerInfoBody df) = _
      rw [playerInfoBody_player_id_values df hg, playerInfoFiltered_of_mem df hg,
        filterRows_rows]
  · intro hp
    rw [playerPrepare_eq]
    refine ⟨?_, ?_⟩
    · show (playerBody df).rows.length = _
      rw [playerBody_rows_length, playerFiltered_of_mem df hp, filterRows_rows]
    · show colValues "player_id" (playerBody df) = _
      rw [playerBody_player_id_values, playerFiltered_of_mem df hp,
        colValues_filterRows]

/-- C6 witness: a 10-row roster table with exactly one null `gsis_id` maps
to a 9-row output whose `player_id` column lists the nine non-null ids. -/
theorem null_pk_rows_dropped_witness :
    exceptRowCount (teamPrepare roster10 "rosters") = 9 :=
  (((null_pk_rows_dropped roster10).1 (by decide) (by decide)).1).trans (by decide)

/-! Lemmas for the derived team-stats columns. -/

theorem foldl_addV_ext (cs : List String) (r1 r2 : Row)
    (h : ∀ c ∈ cs, r1 c = r2 c) :
    ∀ init, cs.foldl (fun acc c => addV acc (fill0 (r1 c))) init
      = cs.foldl (fun acc c => addV acc (fill0 (r2 c))) init := by
  induction cs with
  | nil => intro init; rfl
  | cons c cs ih =>
    intro init
    simp only [List.foldl_cons]
    rw [h c (List.mem_cons_self _ _)]
    exact ih (fun x hx => h x (List.mem_cons_of_mem _ hx)) _

theorem turnoversExpr_ext (tcols : List String) (r1 r2 : Row)
    (h : ∀ c ∈ tcols, r1 c = r2 c) :
    turnoversExpr tcols r1 = turnoversExpr tcols r2 := by
  cases tcols with
  | nil => rfl
  | cons c cs =>
    simp only [turnoversExpr, sumH, List.map_cons, List.foldl_map]
    rw [h c (List.mem_cons_self _ _)]
    exact foldl_addV_ext cs r1 r2 (fun x hx => h x (List.mem_cons_of_mem _ hx)) _

theorem statsWithTotal_rows_length (df : DataFrame) :
    (statsWithTotal df).rows.length = df.rows.length := by
  rw [statsWithTotal]
  by_cases h : "passing_yards" ∈ df.cols ∧ "rushing_yards" ∈ df.cols <;>
    simp [h, withColumn_rows_length]

theorem statsWithTotal_colValues_total (df : DataFrame)
    (hp : "passing_yards" ∈ df.cols) (hr : "rushing_yards" ∈ df.cols) :
    colValues "total_yards" (statsWithTotal df) = df.rows.map totalYardsExpr := by
  rw [statsWithTotal, if_pos ⟨hp, hr⟩, withColumn_colValues_self]

theorem statsWithTotal_colValues_other (df : DataFrame) (c : String)
    (h : c ≠ "total_yards") :
    colValues c (statsWithTotal df) = colValues c df := by
  rw [statsWithTotal]
  by_cases hg : "passing_yards" ∈ df.cols ∧ "rushing_yards" ∈ df.cols <;>
    simp [hg, withColumn_colValues_other _ _ _ _ h]

theorem statsWithTotal_total_mem (df : DataFrame)
    (hp : "passing_yards" ∈ df.cols) (hr : "rushing_yards" ∈ df.cols) :
    "total_yards" ∈ (statsWithTotal df).cols := by
  rw [statsWithTotal, if_pos ⟨hp, hr⟩, withColumn]
  by_cases h : "total_yards" ∈ df.cols <;> simp [h]

theorem statsWithTotal_mem_iff (df : DataFrame) (c : String)
    (h : c ≠ "total_yards") :
    c ∈ (statsWithTotal df).cols ↔ c ∈ df.cols := by
  rw [statsWithTotal]
  by_cases hg : "passing_yards" ∈ df.cols ∧ "rushing_yards" ∈ df.cols
  · rw [if_pos hg, withColumn]
    by_cases ht : "total_yards" ∈ df.cols <;> simp [ht, h]
  · rw [if_neg hg]

theorem statsWithTotal_rows_ext (df : DataFrame) (c : String) (h : c ≠ "total_yards") :
    ∀ r ∈ (statsWithTotal df).rows, ∃ r0 ∈ df.rows, r c = r0 c
      ∧ ∀ c2, c2 ≠ "total_yards" → r c2 = r0 c2 := by
  rw [statsWithTotal]
  by_cases hg : "passing_yards" ∈ df.cols ∧ "rushing_yards" ∈ df.cols
  · rw [if_pos hg, withColumn_rows]
    intro r hrm
    obtain ⟨r0, hr0, hr0e⟩ := List.mem_map.mp hrm
    refine ⟨r0, hr0, ?_, ?_⟩
    · rw [← hr0e]; simp [h]
    · intro c2 h2; rw [← hr0e]; simp [h2]
  · rw [if_neg hg]
    intro r hrm
    exact ⟨r, hrm, rfl, fun _ _ => rfl⟩

theorem turnoverSources_ne_total (c : String) (h : c ∈ turnoverSources) :
    c ≠ "total_yards" := by
  simp only [turnoverSources, List.mem_cons, List.not_mem_nil, or_false] at h
  rcases h with h | h | h <;> subst h <;> decide

theorem statsTcols_eq (df : DataFrame) :
    availableCols turnoverSources (statsWithTotal df).cols
      = availableCols turnoverSources df.cols := by
  unfold availableCols
  apply List.filter_congr
  intro c hc
  simp only [decide_eq_decide]
  exact statsWithTotal_mem_iff df c (turnoverSources_ne_total c hc)

theorem statsDerived_rows_length (df : DataFrame) :
    (statsDerived df).rows.length = df.rows.length := by
  rw [statsDerived]
  by_cases h : availableCols turnoverSources (statsWithTotal df).cols ≠ [] <;>
    simp [h, withColumn_rows_length, statsWithTotal_rows_length]

theorem statsDerived_colValues_total (df : DataFrame)
    (hp : "passing_yards" ∈ df.cols) (hr : "rushing_yards" ∈ df.cols) :
    colValues "total_yards" (statsDerived df) = df.rows.map totalYardsExpr := by
  rw [statsDerived]
  by_cases h : availableCols turnoverSources (statsWithTotal df).cols ≠ [] <;>
    simp [h, withColumn_colValues_other _ _ _ _
      (by decide : ("total_yards" : String) ≠ "turnovers"),
      statsWithTotal_colValues_total df hp hr]

theorem statsDerived_total_mem (df : DataFrame)
    (hp : "passing_yards" ∈ df.cols) (hr : "rushing_yards" ∈ df.cols) :
    "total_yards" ∈ (statsDerived df).cols := by
  rw [statsDerived]
  by_cases h : availableCols turnoverSources (statsWithTotal df).cols ≠ []
  · rw [if_pos h]
    exact mem_withColumn_cols _ _ _ _ (statsWithTotal_total_mem df hp hr)
  · rw [if_neg h]
    exact statsWithTotal_total_mem df hp hr

theorem statsDerived_turnovers_mem (df : DataFrame)
    (ht : availableCols turnoverSources df.cols ≠ []) :
    "turnovers" ∈ (statsDerived df).cols := by
  rw [statsDerived, statsTcols_eq, if_pos ht, withColumn]
  by_cases h : "turnovers" ∈ (statsWithTotal df).cols <;> simp [h]

theorem statsDerived_colValues_turnovers (df : DataFrame)
    (ht : availableCols turnoverSources df.cols ≠ []) :
    colValues "turnovers" (statsDerived df)
      = df.rows.map (turnoversExpr (availableCols turnoverSources df.cols)) := by
  rw [statsDerived, statsTcols_eq, if_pos ht, withColumn_colValues_self]
  rw [statsWithTotal]
  by_cases hg : "passing_yards" ∈ df.cols ∧ "rushing_yards" ∈ df.cols
  · rw [if_pos hg, withColumn_rows, List.map_map]
    apply List.map_congr_left
    intro r _
    apply turnoversExpr_ext
    intro c hc
    have := turnoverSources_ne_total c (List.mem_filter.mp hc).1
    simp [Function.comp, this]
  · rw [if_neg hg]

theorem renameStepF_mem_cols (old new c : String) (df : DataFrame)
    (hc : c ∈ df.cols) (h : c ≠ old) : c ∈ (renameStepF old new df).cols := by
  rw [renameStepF_cols, renameColsIf]
  by_cases hm : old ∈ df.cols
  · rw [if_pos hm]
    exact List.mem_map.mpr ⟨c, hc, by simp [substCol, h]⟩
  · rw [if_neg hm]; exact hc

/-- C9 amended: for every team-stats input containing `passing_yards` and
`rushing_yards`, the mapped `total_yards` column equals the Int32 cast of
passing_yards + rushing_yards with nulls treated as 0, and when any of the
turnover-contributing columns is present the mapped `turnovers` column
equals the Int32 cast of their null-as-0 horizontal sum; both are computed
before column selection (so they appear even though they were not input
columns). -/
theorem team_totals_amended (df : DataFrame)
    (hp : "passing_yards" ∈ df.cols) (hr : "rushing_yards" ∈ df.cols)
    (hok : isOkDF (teamPrepare df "stats") = true) :
    exceptColValues "total_yards" (teamPrepare df "stats")
        = df.rows.map (fun r => castInt32 (totalYardsExpr r))
    ∧ (availableCols turnoverSources df.cols ≠ [] →
      exceptColValues "turnovers" (teamPrepare df "stats")
        = df.rows.map (fun r => castInt32
            (turnoversExpr (availableCols turnoverSources df.cols) r))) := by
  obtain ⟨out, hout⟩ := isOkDF_exists _ (by rwa [teamPrepare_stats_eq] at hok)
  have hbody := prepStats_ok_elim df out hout
  rw [hbody] at hout
  rw [teamPrepare_stats_eq, hout]
  constructor
  · show colValues "total_yards" (statsBody df) = _
    rw [statsBody]
    have hmem : "total_yards" ∈ (select (availableCols teamStatsSchemaColumns
        (renameStepF "passing_interceptions" "interceptions"
          (renameStepF "opponent_team" "opponent" (statsDerived df))).cols)
        (renameStepF "passing_interceptions" "interceptions"
          (renameStepF "opponent_team" "opponent" (statsDerived df)))).cols := by
      rw [select_cols]
      refine (mem_availableCols _ _ _).mpr ⟨by decide, ?_⟩
      exact renameStepF_mem_cols _ _ _ _
        (renameStepF_mem_cols _ _ _ _ (statsDerived_total_mem df hp hr) (by decide))
        (by decide)
    rw [castCols_colValues_mem _ _ _ (by decide) hmem, select_colValues,
      renameStepF_colValues_other _ _ _ _ (by decide),
      renameStepF_colValues_other _ _ _ _ (by decide),
      statsDerived_colValues_total df hp hr, List.map_map]
    rfl
  · intro ht
    show colValues "turnovers" (statsBody df) = _
    rw [statsBody]
    have hmem : "turnovers" ∈ (select (availableCols teamStatsSchemaColumns
        (renameStepF "passing_interceptions" "interceptions"
          (renameStepF "opponent_team" "opponent" (statsDerived df))).cols)
        (renameStepF "passing_interceptions" "interceptions"
          (renameStepF "opponent_team" "opponent" (statsDerived df)))).cols := by
      rw [select_cols]
      refine (mem_availableCols _ _ _).mpr ⟨by decide, ?_⟩
      exact renameStepF_mem_cols _ _ _ _
        (renameStepF_mem_cols _ _ _ _ (statsDerived_turnovers_mem df ht) (by decide))
        (by decide)
    rw [castCols_colValues_mem _ _ _ (by decide) hmem, select_colValues,
      renameStepF_colValues_other _ _ _ _ (by decide),
      renameStepF_colValues_other _ _ _ _ (by decide),
      statsDerived_colValues_turnovers df ht, List.map_map]
    rfl

/-- C9 witness: passing_yards 250 and rushing_yards 80 yield total_yards
330, and a single null `passing_interceptions` column yields turnovers 0
(nulls treated as 0). -/
theorem team_totals_amended_witness :
    exceptColValues "total_yards" (teamPrepare df330 "stats") = [Value.vint 330]
    ∧ exceptColValues "turnovers" (teamPrepare df330 "stats") = [Value.vint 0] :=
  ⟨((team_totals_amended df330 (by decide) (by decide) (by decide)).1).trans
      (by decide),
   (((team_totals_amended df330 (by decide) (by decide) (by decide)).2)
      (by decide)).trans (by decide)⟩

/-! Lemmas for the guarded/unguarded renames (C5). -/

theorem playerRenamed_of_dest_mem (df : DataFrame)
    (hI : "interceptions" ∈ df.cols) : playerRenamed df = playerFiltered df := by
  rw [playerRenamed, if_neg]
  intro hg
  exact hg.2 (by rw [playerFiltered_cols]; exact hI)

theorem statsWithTotal_mem_of (df : DataFrame) (c : String) (hc : c ∈ df.cols) :
    c ∈ (statsWithTotal df).cols := by
  rw [statsWithTotal]
  by_cases hg : "passing_yards" ∈ df.cols ∧ "rushing_yards" ∈ df.cols
  · rw [if_pos hg]; exact mem_withColumn_cols _ _ _ _ hc
  · rw [if_neg hg]; exact hc

theorem statsDerived_mem_of (df : DataFrame) (c : String) (hc : c ∈ df.cols) :
    c ∈ (statsDerived df).cols := by
  rw [statsDerived]
  have h1 := statsWithTotal_mem_of df c hc
  by_cases ht : availableCols turnoverSources (statsWithTotal df).cols ≠ []
  · rw [if_pos ht]; exact mem_withColumn_cols _ _ _ _ h1
  · rw [if_neg ht]; exact h1

/-- C5 amended: the player-stats rename is guarded, so on an input that
already has the `interceptions` destination column the mapper succeeds and
leaves that column's (filtered, cast) values untouched; the team-stats
renames are unguarded, so an input containing both `opponent_team` and
`opponent`, or both `passing_interceptions` and `interceptions`, makes the
team-stats mapper raise a duplicate-column error instead of being a
no-op. -/
theorem rename_noop_amended (df : DataFrame) (hI : "interceptions" ∈ df.cols) :
    isOkDF (playerPrepare df) = true
    ∧ exceptColValues "interceptions" (playerPrepare df)
        = (playerFiltered df).rows.map (fun r => castInt32 (r "interceptions"))
    ∧ ("opponent_team" ∈ df.cols → "opponent" ∈ df.cols →
        isOkDF (teamPrepare df "stats") = false)
    ∧ ("passing_interceptions" ∈ df.cols →
        isOkDF (teamPrepare df "stats") = false) := by
  refine ⟨?_, ?_, ?_, ?_⟩
  · rw [playerPrepare_eq]; rfl
  · rw [playerPrepare_eq]
    show colValues "interceptions" (playerBody df) = _
    rw [playerBody]
    have hmem : "interceptions" ∈ (select (availableCols playerSchemaColumns
        (playerRenamed df).cols) (playerRenamed df)).cols := by
      rw [select_cols]
      refine (mem_availableCols _ _ _).mpr ⟨by decide, ?_⟩
      rw [playerRenamed_of_dest_mem df hI, playerFiltered_cols]
      exact hI
    rw [castCols_colValues_mem _ _ _ (by decide) hmem, select_colValues,
      playerRenamed_of_dest_mem df hI]
    rw [show colValues "interceptions" (playerFiltered df)
      = (playerFiltered df).rows.map (fun r => r "interceptions") from rfl,
      List.map_map]
    rfl
  · intro h1 h2
    have e1 : renameStep "opponent_team" "opponent" (statsDerived df)
        = Except.error ("duplicate column name " ++ "opponent") :=
      renameStep_dup _ _ _ (statsDerived_mem_of df _ h1)
        (statsDerived_mem_of df _ h2) (by decide)
    rw [teamPrepare_stats_eq, prepStats_eq_bind, e1]
    rfl
  · intro hpi
    rw [teamPrepare_stats_eq, prepStats_eq_bind]
    cases h1 : renameStep "opponent_team" "opponent" (statsDerived df) with
    | error e => rfl
    | ok df3 =>
      rw [ok_bind]
      have hb := renameStep_eq_ok _ _ _ _ h1
      have hpi3 : "passing_interceptions" ∈ df3.cols := by
        rw [hb]
        exact renameStepF_mem_cols _ _ _ _ (statsDerived_mem_of df _ hpi) (by decide)
      have hint3 : "interceptions" ∈ df3.cols := by
        rw [hb]
        exact renameStepF_mem_cols _ _ _ _ (statsDerived_mem_of df _ hI) (by decide)
      rw [renameStep_dup _ _ _ hpi3 hint3 (by decide)]
      rfl

/-- C5 witness: on an input with both `passing_interceptions` (7) and
`interceptions` (2) and no opponent columns, the player-stats mapper
succeeds and keeps the value 2 in `interceptions`, while that same
interception pair makes the team-stats mapper fail; an input with both
`opponent_team` and `opponent` also makes the team-stats mapper fail. -/
theorem rename_noop_amended_witness :
    isOkDF (playerPrepare dupPlayerDf) = true
    ∧ exceptColValues "interceptions" (playerPrepare dupPlayerDf) = [Value.vint 2]
    ∧ isOkDF (teamPrepare dupPlayerDf "stats") = false
    ∧ isOkDF (teamPrepare opponentPairDf "stats") = false :=
  ⟨(rename_noop_amended dupPlayerDf (by decide)).1,
   ((rename_noop_amended dupPlayerDf (by decide)).2.1).trans (by decide),
   (rename_noop_amended dupPlayerDf (by decide)).2.2.2 (by decide),
   (rename_noop_amended opponentPairDf (by decide)).2.2.1 (by decide) (by decide)⟩

/-! Column-set lemmas for the mappers (C3). -/

theorem uniqueBy_cols (c : String) (df : DataFrame) : (uniqueBy c df).cols = df.cols := rfl

theorem uniqueBy_rows (c : String) (df : DataFrame) :
    (uniqueBy c df).rows = dedupKeys (fun r => r c) [] df.rows := rfl

theorem pbpPrepare_cols (df : DataFrame) :
    (pbpPrepare df).cols = availableCols pbpKeyColumns df.cols := by
  rw [pbpPrepare]
  simp only [castCols_cols, select_cols]
  by_cases h : "play_id" ∈ availableCols pbpKeyColumns df.cols <;>
    simp [h, uniqueBy_cols, castCols_cols, select_cols]

theorem playerRenamed_cols (df : DataFrame) :
    (playerRenamed df).cols = playerColsAfterRename df.cols := by
  rw [playerRenamed, playerColsAfterRename]
  simp only [playerFiltered_cols]
  by_cases h : "passing_interceptions" ∈ df.cols ∧ "interceptions" ∉ df.cols <;>
    simp [h, renamedF, substCol, playerFiltered_cols]

theorem playerBody_cols (df : DataFrame) :
    (playerBody df).cols
      = availableCols playerSchemaColumns (playerColsAfterRename df.cols) := by
  rw [playerBody, castCols_cols, select_cols, playerRenamed_cols]

theorem rostersBody_cols (df : DataFrame) :
    (rostersBody df).cols
      = availableCols rostersSchemaColumns (rostersColsAfterRename df.cols) := by
  rw [rostersBody, castCols_cols, select_cols, renameStepF_cols, renameStepF_cols,
    rostersDated_cols, rostersFiltered_cols, rostersColsAfterRename]

theorem statsWithTotal_cols (df : DataFrame) :
    (statsWithTotal df).cols = colsWithTotal df.cols := by
  rw [statsWithTotal, colsWithTotal]
  by_cases h : "passing_yards" ∈ df.cols ∧ "rushing_yards" ∈ df.cols <;>
    simp [h, withColumn]

theorem statsDerived_cols (df : DataFrame) :
    (statsDerived df).cols = colsWithTurnovers (colsWithTotal df.cols) := by
  rw [statsDerived, colsWithTurnovers, ← statsWithTotal_cols]
  by_cases ht : availableCols turnoverSources (statsWithTotal df).cols ≠ [] <;>
    simp [ht, withColumn]

theorem statsBody_cols (df : DataFrame) :
    (statsBody df).cols
      = availableCols teamStatsSchemaColumns (statsColsDerived df.cols) := by
  rw [statsBody, castCols_cols, select_cols, renameStepF_cols, renameStepF_cols,
    statsDerived_cols, statsColsDerived]

theorem schedulesBody_cols (df : DataFrame) :
    (schedulesBody df).cols
      = renameColsIf "gameday" "game_date"
          (availableCols schedulesSchemaColumns df.cols) := by
  rw [schedulesBody, castCols_cols, renameStepF_cols, select_cols]

theorem schedules_schema_ne_game_date : ∀ a ∈ schedulesSchemaColumns, a ≠ "game_date" := by
  decide

theorem schedules_cols_identity (df : DataFrame) (hgd : "game_date" ∉ df.cols) :
    renameColsIf "gameday" "game_date" (availableCols schedulesSchemaColumns df.cols)
      = availableCols destSchedulesColumns
          (renameColsIf "gameday" "game_date" df.cols) := by
  by_cases hgame : "gameday" ∈ df.cols
  · have hmem : "gameday" ∈ availableCols schedulesSchemaColumns df.cols :=
      (mem_availableCols _ _ _).mpr ⟨by decide, hgame⟩
    rw [renameColsIf, if_pos hmem, renameColsIf, if_pos hgame]
    simp only [destSchedulesColumns, availableCols]
    rw [List.filter_map]
    have hcong : List.filter
        ((fun c => decide (c ∈ List.map (substCol "gameday" "game_date") df.cols))
          ∘ substCol "gameday" "game_date") schedulesSchemaColumns
        = List.filter (fun c => decide (c ∈ df.cols)) schedulesSchemaColumns := by
      apply List.filter_congr
      intro a ha
      simp only [Function.comp, decide_eq_decide]
      have haS : a ≠ "game_date" := schedules_schema_ne_game_date a ha
      constructor
      · intro hin
        obtain ⟨x, hx, hxe⟩ := List.mem_map.mp hin
        by_cases hxg : x = "gameday"
        · subst hxg
          by_cases hag : a = "gameday"
          · subst hag; exact hgame
          · exfalso
            apply haS
            have hsa : substCol "gameday" "game_date" a = "game_date" := by
              rw [← hxe]; rfl
            rw [substCol, if_neg hag] at hsa
            exact hsa
        · have hxx : substCol "gameday" "game_date" x = x := by
            rw [substCol, if_neg hxg]
          rw [hxx] at hxe
          by_cases hag : a = "gameday"
          · subst hag
            rw [show substCol "gameday" "game_date" "gameday" = "game_date" from rfl]
              at hxe
            rw [hxe] at hx
            exact absurd hx hgd
          · rw [substCol, if_neg hag] at hxe
            rw [hxe] at hx
            exact hx
      · intro ha2
        exact List.mem_map.mpr ⟨a, ha2, rfl⟩
    rw [hcong]
  · have hnot : "gameday" ∉ availableCols schedulesSchemaColumns df.cols := by
      intro hc
      exact hgame ((mem_availableCols _ _ _).mp hc).2
    rw [renameColsIf, if_neg hnot, renameColsIf, if_neg hgame]
    simp only [destSchedulesColumns, availableCols]
    rw [List.filter_map]
    have hcong : List.filter
        ((fun c => decide (c ∈ df.cols)) ∘ substCol "gameday" "game_date")
        schedulesSchemaColumns
        = List.filter (fun c => decide (c ∈ df.cols)) schedulesSchemaColumns := by
      apply List.filter_congr
      intro a _
      simp only [Function.comp, decide_eq_decide]
      by_cases hag : a = "gameday"
      · subst hag
        rw [show substCol "gameday" "game_date" "gameday" = "game_date" from rfl]
        exact ⟨fun h => absurd h hgd, fun h => absurd h hgame⟩
      · rw [substCol, if_neg hag]
    rw [hcong]
    have hpt : ∀ c ∈ List.filter (fun c => decide (c ∈ df.cols)) schedulesSchemaColumns,
        substCol "gameday" "game_date" c = c := by
      intro c hc
      have hcd : c ∈ df.cols := by simpa using (List.mem_filter.mp hc).2
      have hcg : c ≠ "gameday" := by
        intro he
        rw [he] at hcd
        exact hgame hcd
      rw [substCol, if_neg hcg]
    calc List.filter (fun c => decide (c ∈ df.cols)) schedulesSchemaColumns
        = (List.filter (fun c => decide (c ∈ df.cols))
            schedulesSchemaColumns).map (fun c => c) := by rw [List.map_id']
      _ = (List.filter (fun c => decide (c ∈ df.cols))
            schedulesSchemaColumns).map (substCol "gameday" "game_date") :=
          (List.map_congr_left hpt).symm

theorem schedules_cols_subset (df : DataFrame) :
    ∀ c ∈ renameColsIf "gameday" "game_date"
        (availableCols schedulesSchemaColumns df.cols),
      c ∈ destSchedulesColumns := by
  intro c hc
  rw [renameColsIf] at hc
  by_cases hg2 : "gameday" ∈ availableCols schedulesSchemaColumns df.cols
  · rw [if_pos hg2] at hc
    obtain ⟨a, ha, hae⟩ := List.mem_map.mp hc
    have haS : a ∈ schedulesSchemaColumns := ((mem_availableCols _ _ _).mp ha).1
    exact hae ▸ List.mem_map.mpr ⟨a, haS, rfl⟩
  · rw [if_neg hg2] at hc
    have hcS : c ∈ schedulesSchemaColumns := ((mem_availableCols _ _ _).mp hc).1
    have hcg : c ≠ "gameday" := fun he => hg2 (he ▸ hc)
    have : substCol "gameday" "game_date" c = c := by rw [substCol, if_neg hcg]
    exact this ▸ List.mem_map.mpr ⟨c, hcS, rfl⟩

/-- C3 amended: every mapper's output column set is contained in its
destination-schema list, and equals the destination list filtered to the
mapper's effective input columns: the input columns after renaming for
play-by-play (no renames), player stats, and rosters; for team stats the
input columns after the pre-selection addition of the derived
total_yards/turnovers columns and the renames; for schedules (whose
selection list carries the pre-rename name `gameday`) the identity holds
for inputs not already containing `game_date`. -/
theorem mapper_colset_amended (df : DataFrame) :
    ((pbpPrepare df).cols = availableCols pbpKeyColumns df.cols
      ∧ ∀ c ∈ (pbpPrepare df).cols, c ∈ pbpKeyColumns)
    ∧ (exceptColsList (playerPrepare df)
        = availableCols playerSchemaColumns (playerColsAfterRename df.cols)
      ∧ ∀ c ∈ exceptColsList (playerPrepare df), c ∈ playerSchemaColumns)
    ∧ ((isOkDF (teamPrepare df "rosters") = true →
        exceptColsList (teamPrepare df "rosters")
          = availableCols rostersSchemaColumns (rostersColsAfterRename df.cols))
      ∧ ∀ c ∈ exceptColsList (teamPrepare df "rosters"), c ∈ rostersSchemaColumns)
    ∧ (exceptColsList (teamPrepare df "info")
        = availableCols teamInfoSchemaColumns df.cols
      ∧ ∀ c ∈ exceptColsList (teamPrepare df "info"), c ∈ teamInfoSchemaColumns)
    ∧ ((isOkDF (teamPrepare df "stats") = true →
        exceptColsList (teamPrepare df "stats")
          = availableCols teamStatsSchemaColumns (statsColsDerived df.cols))
      ∧ ∀ c ∈ exceptColsList (teamPrepare df "stats"), c ∈ teamStatsSchemaColumns)
    ∧ (("game_date" ∉ df.cols → isOkDF (teamPrepare df "schedules") = true →
        exceptColsList (teamPrepare df "schedules")
          = availableCols destSchedulesColumns (schedulesColsAfterRename df.cols))
      ∧ ∀ c ∈ exceptColsList (teamPrepare df "schedules"), c ∈ destSchedulesColumns) := by
  refine ⟨⟨pbpPrepare_cols df, ?_⟩, ⟨?_, ?_⟩, ⟨?_, ?_⟩, ⟨?_, ?_⟩, ⟨?_, ?_⟩, ⟨?_, ?_⟩⟩
  · intro c hc
    rw [pbpPrepare_cols] at hc
    exact ((mem_availableCols _ _ _).mp hc).1
  · rw [playerPrepare_eq]
    exact playerBody_cols df
  · intro c hc
    rw [playerPrepare_eq] at hc
    have hc2 : c ∈ (playerBody df).cols := hc
    rw [playerBody_cols] at hc2
    exact ((mem_availableCols _ _ _).mp hc2).1
  · intro hok
    obtain ⟨out, hout⟩ := isOkDF_exists _ (by rwa [teamPrepare_rosters_eq] at hok)
    have hob := prepRosters_ok_elim df out hout
    rw [hob] at hout
    rw [teamPrepare_rosters_eq, hout]
    exact rostersBody_cols df
  · intro c hc
    rw [teamPrepare_rosters_eq] at hc
    cases hpr : prepRosters df with
    | error e => rw [hpr] at hc; simp [exceptColsList] at hc
    | ok out =>
      rw [hpr] at hc
      have hob := prepRosters_ok_elim df out hpr
      have hc2 : c ∈ (rostersBody df).cols := by rw [← hob]; exact hc
      rw [rostersBody_cols] at hc2
      exact ((mem_availableCols _ _ _).mp hc2).1
  · rfl
  · intro c hc
    have hc2 : c ∈ availableCols teamInfoSchemaColumns df.cols := hc
    exact ((mem_availableCols _ _ _).mp hc2).1
  · intro hok
    obtain ⟨out, hout⟩ := isOkDF_exists _ (by rwa [teamPrepare_stats_eq] at hok)
    have hob := prepStats_ok_elim df out hout
    rw [hob] at hout
    rw [teamPrepare_stats_eq, hout]
    exact statsBody_cols df
  · intro c hc
    rw [teamPrepare_stats_eq] at hc
    cases hpr : prepStats df with
    | error e => rw [hpr] at hc; simp [exceptColsList] at hc
    | ok out =>
      rw [hpr] at hc
      have hob := prepStats_ok_elim df out hpr
      have hc2 : c ∈ (statsBody df).cols := by rw [← hob]; exact hc
      rw [statsBody_cols] at hc2
      exact ((mem_availableCols _ _ _).mp hc2).1
  · intro hgd hok
    obtain ⟨out, hout⟩ := isOkDF_exists _ (by rwa [teamPrepare_schedules_eq] at hok)
    have hob := prepSchedules_ok_elim df out hout
    rw [hob] at hout
    rw [teamPrepare_schedules_eq, hout]
    show (schedulesBody df).cols = _
    rw [schedulesBody_cols, schedulesColsAfterRename]
    exact schedules_cols_identity df hgd
  · intro c hc
    rw [teamPrepare_schedules_eq] at hc
    cases hpr : prepSchedules df with
    | error e => rw [hpr] at hc; simp [exceptColsList] at hc
    | ok out =>
      rw [hpr] at hc
      have hob := prepSchedules_ok_elim df out hpr
      have hc2 : c ∈ (schedulesBody df).cols := by rw [← hob]; exact hc
      rw [schedulesBody_cols] at hc2
      exact schedules_cols_subset df c hc2

/-! Generic lemmas used by the idempotence proofs (C4). -/

theorem map_castInt32_idem (l : List Value) :
    (l.map castInt32).map castInt32 = l.map castInt32 := by
  rw [List.map_map]
  apply List.map_congr_left
  intro v _
  simp [Function.comp, castInt32_idem]

theorem map_castStr_idem (l : List Value) :
    (l.map castStr).map castStr = l.map castStr := by
  rw [List.map_map]
  apply List.map_congr_left
  intro v _
  simp [Function.comp, castStr_idem]

theorem select_eta (cs : List String) (df : DataFrame) (h : df.cols = cs) :
    select cs df = df := by
  cases df with
  | mk cols rows =>
    cases h
    rfl

theorem dedupKeys_keys_spec (key : Row → Value) :
    ∀ (l : List Row) (seen : List Value),
      ((dedupKeys key seen l).map key).Nodup
      ∧ ∀ v ∈ (dedupKeys key seen l).map key, v ∉ seen := by
  intro l
  induction l with
  | nil => intro seen; exact ⟨by simp [dedupKeys], by simp [dedupKeys]⟩
  | cons r rs ih =>
    intro seen
    rw [dedupKeys]
    by_cases hk : key r ∈ seen
    · rw [if_pos hk]; exact ih seen
    · rw [if_neg hk]
      have iht := ih (key r :: seen)
      refine ⟨?_, ?_⟩
      · simp only [List.map_cons, List.nodup_cons]
        exact ⟨fun hmem => (iht.2 _ hmem) (List.mem_cons_self _ _), iht.1⟩
      · intro v hv
        simp only [List.map_cons, List.mem_cons] at hv
        rcases hv with hv | hv
        · subst hv; exact hk
        · exact fun hvs => (iht.2 v hv) (List.mem_cons_of_mem _ hvs)

theorem dedupKeys_eq_self (key : Row → Value) :
    ∀ (l : List Row) (seen : List Value),
      (l.map key).Nodup → (∀ v ∈ l.map key, v ∉ seen) →
      dedupKeys key seen l = l := by
  intro l
  induction l with
  | nil => intro seen _ _; rfl
  | cons r rs ih =>
    intro seen h1 h2
    rw [dedupKeys, if_neg (h2 (key r) (by simp))]
    congr 1
    simp only [List.map_cons, List.nodup_cons] at h1
    apply ih (key r :: seen) h1.2
    intro v hv
    simp only [List.mem_cons]
    rintro (hv2 | hv2)
    · exact h1.1 (hv2 ▸ hv)
    · exact h2 v (List.mem_cons_of_mem _ hv) hv2

theorem dedupKeys_sub (key : Row → Value) :
    ∀ (l : List Row) (seen : List Value) (r : Row),
      r ∈ dedupKeys key seen l → r ∈ l := by
  intro l
  induction l with
  | nil => intro seen r h; simp [dedupKeys] at h
  | cons x xs ih =>
    intro seen r h
    rw [dedupKeys] at h
    by_cases hk : key x ∈ seen
    · rw [if_pos hk] at h
      exact List.mem_cons_of_mem _ (ih seen r h)
    · rw [if_neg hk] at h
      rcases List.mem_cons.mp h with h | h
      · exact h ▸ List.mem_cons_self _ _
      · exact List.mem_cons_of_mem _ (ih _ r h)

theorem mem_renameColsIf_iff (old new c : String) (cols : List String)
    (hcn : c ≠ new) (hco : c ≠ old) :
    c ∈ renameColsIf old new cols ↔ c ∈ cols := by
  rw [renameColsIf]
  by_cases hm : old ∈ cols
  · rw [if_pos hm]
    constructor
    · intro h
      obtain ⟨x, hx, he⟩ := List.mem_map.mp h
      by_cases hxo : x = old
      · subst hxo
        rw [substCol, if_pos rfl] at he
        exact absurd he.symm hcn
      · rw [substCol, if_neg hxo] at he
        exact he ▸ hx
    · intro h
      exact List.mem_map.mpr ⟨c, h, by rw [substCol, if_neg hco]⟩
  · rw [if_neg hm]

theorem mem_playerColsAfterRename_iff (cols : List String) (c : String)
    (h1 : c ≠ "interceptions") (h2 : c ≠ "passing_interceptions") :
    c ∈ playerColsAfterRename cols ↔ c ∈ cols := by
  rw [playerColsAfterRename]
  by_cases hg : "passing_interceptions" ∈ cols ∧ "interceptions" ∉ cols
  · rw [if_pos hg]
    constructor
    · intro h
      obtain ⟨x, hx, he⟩ := List.mem_map.mp h
      by_cases hxo : x = "passing_interceptions"
      · subst hxo
        rw [substCol, if_pos rfl] at he
        exact absurd he.symm h1
      · rw [substCol, if_neg hxo] at he
        exact he ▸ hx
    · intro h
      exact List.mem_map.mpr ⟨c, h, by rw [substCol, if_neg h2]⟩
  · rw [if_neg hg]

/-! Idempotence of the info, player-stats, play-by-play, and rosters
mappings (C4). -/

theorem prepInfo_idem (df : DataFrame) :
    (prepInfo df).bind (fun d => prepInfo d) = prepInfo df := by
  rw [show prepInfo df = Except.ok
      (select (availableCols teamInfoSchemaColumns df.cols) df) from rfl, ok_bind]
  rw [show prepInfo (select (availableCols teamInfoSchemaColumns df.cols) df)
    = Except.ok (select (availableCols teamInfoSchemaColumns
        (availableCols teamInfoSchemaColumns df.cols))
        (select (availableCols teamInfoSchemaColumns df.cols) df)) from rfl]
  rw [availableCols_idem]
  exact rfl

theorem playerFiltered_playerBody (df : DataFrame) :
    playerFiltered (playerBody df) = playerBody df := by
  by_cases hpid : "player_id" ∈ (playerBody df).cols
  · have hdf : "player_id" ∈ df.cols := by
      rw [playerBody_cols] at hpid
      have h2 := ((mem_availableCols _ _ _).mp hpid).2
      exact (mem_playerColsAfterRename_iff _ _ (by decide) (by decide)).mp h2
    have hvals : ∀ v ∈ colValues "player_id" (playerBody df),
        (v != Value.vnull) = true := by
      rw [playerBody_player_id_values, playerFiltered_of_mem df hdf,
        colValues_filterRows]
      intro v hv
      obtain ⟨r, hr, he⟩ := List.mem_map.mp hv
      have hp := (List.mem_filter.mp hr).2
      rw [← he]
      exact hp
    rw [playerFiltered, if_pos hpid, filterRows]
    rw [List.filter_eq_self.mpr
      (fun r hr => hvals (r "player_id") (List.mem_map.mpr ⟨r, hr, rfl⟩))]
  · rw [playerFiltered, if_neg hpid]

theorem playerRenamed_playerBody (df : DataFrame) :
    playerRenamed (playerBody df) = playerBody df := by
  have hguard : ¬("passing_interceptions" ∈ (playerBody df).cols
      ∧ "interceptions" ∉ (playerBody df).cols) := by
    rintro ⟨h1, _⟩
    rw [playerBody_cols] at h1
    exact absurd ((mem_availableCols _ _ _).mp h1).1 (by decide)
  rw [playerRenamed, playerFiltered_playerBody, if_neg hguard]

theorem playerBody_cols_eq_sel (df : DataFrame) :
    (playerBody df).cols
      = availableCols playerSchemaColumns (playerRenamed df).cols := by
  rw [playerBody, castCols_cols, select_cols]

theorem playerBody_idem (df : DataFrame) :
    toCells (playerBody (playerBody df)) = toCells (playerBody df) := by
  have hsel2 : availableCols playerSchemaColumns (playerBody df).cols
      = (playerBody df).cols := by
    rw [playerBody_cols, availableCols_idem, ← playerBody_cols]
  have hb2 : playerBody (playerBody df)
      = castCols playerIntColumns (playerBody df) := by
    rw [show playerBody (playerBody df)
      = castCols playerIntColumns
          (select (availableCols playerSchemaColumns
            (playerRenamed (playerBody df)).cols) (playerRenamed (playerBody df)))
      from rfl]
    rw [playerRenamed_playerBody, hsel2, select_eta _ _ rfl]
  rw [hb2]
  apply toCells_eq_of
  · rw [castCols_cols]
  · rw [castCols_rows_length]
  · intro c hc
    rw [castCols_cols] at hc
    by_cases hi : c ∈ playerIntColumns
    · rw [castCols_colValues_mem _ _ _ hi hc]
      have hc2 : c ∈ (select (availableCols playerSchemaColumns
          (playerRenamed df).cols) (playerRenamed df)).cols := by
        rw [select_cols, ← playerBody_cols_eq_sel]
        exact hc
      rw [show colValues c (playerBody df)
        = (colValues c (select (availableCols playerSchemaColumns
            (playerRenamed df).cols) (playerRenamed df))).map castInt32
        from castCols_colValues_mem _ _ _ hi hc2]
      rw [map_castInt32_idem]
    · rw [castCols_colValues_not_mem _ _ _ hi]

theorem pbp_rows_sub (df : DataFrame) :
    ∀ r ∈ (pbpPrepare df).rows, ∃ r0 ∈ df.rows,
      r = castRowFun pbpIntColumns (availableCols pbpKeyColumns df.cols) r0 := by
  intro r hr
  rw [pbpPrepare] at hr
  simp only [castCols_cols, select_cols] at hr
  by_cases hp : "play_id" ∈ availableCols pbpKeyColumns df.cols
  · rw [if_pos hp, uniqueBy_rows] at hr
    have hr2 := dedupKeys_sub (fun r => r "play_id") _ _ _ hr
    rw [castCols_rows, select_cols, select_rows] at hr2
    obtain ⟨r0, hr0, he⟩ := List.mem_map.mp hr2
    exact ⟨r0, hr0, he.symm⟩
  · rw [if_neg hp] at hr
    rw [castCols_rows, select_cols, select_rows] at hr
    obtain ⟨r0, hr0, he⟩ := List.mem_map.mp hr
    exact ⟨r0, hr0, he.symm⟩

theorem pbp_cast_fixed (df : DataFrame) (c : String) (hc : c ∈ pbpIntColumns)
    (hcs : c ∈ availableCols pbpKeyColumns df.cols) :
    ∀ v ∈ colValues c (pbpPrepare df), castInt32 v = v := by
  intro v hv
  obtain ⟨r, hr, he⟩ := List.mem_map.mp hv
  obtain ⟨r0, _, he0⟩ := pbp_rows_sub df r hr
  subst he0
  rw [← he, castRowFun_at, if_pos ⟨hc, hcs⟩]
  exact castInt32_idem _

theorem uniqueBy_eta (c : String) (X : DataFrame)
    (h : dedupKeys (fun r => r c) [] X.rows = X.rows) : uniqueBy c X = X := by
  cases X with
  | mk cols rows =>
    show DataFrame.mk cols (dedupKeys (fun r => r c) [] rows) = DataFrame.mk cols rows
    rw [show dedupKeys (fun r => r c) [] rows = rows from h]

theorem pbpPrepare_restate (df : DataFrame) :
    pbpPrepare df = (if "play_id" ∈ availableCols pbpKeyColumns df.cols then
      uniqueBy "play_id" (castCols pbpIntColumns
        (select (availableCols pbpKeyColumns df.cols) df))
    else castCols pbpIntColumns
      (select (availableCols pbpKeyColumns df.cols) df)) := by
  rw [pbpPrepare]
  simp only [castCols_cols, select_cols]

theorem pbpPrepare_idem (df : DataFrame) :
    toCells (pbpPrepare (pbpPrepare df)) = toCells (pbpPrepare df) := by
  have hsel : availableCols pbpKeyColumns (pbpPrepare df).cols
      = (pbpPrepare df).cols := by
    rw [pbpPrepare_cols, availableCols_idem, ← pbpPrepare_cols]
  have hcast : toCells (castCols pbpIntColumns (pbpPrepare df))
      = toCells (pbpPrepare df) := by
    apply toCells_eq_of
    · rw [castCols_cols]
    · rw [castCols_rows_length]
    · intro c hc
      rw [castCols_cols] at hc
      by_cases hi : c ∈ pbpIntColumns
      · rw [castCols_colValues_mem _ _ _ hi hc]
        have hcs : c ∈ availableCols pbpKeyColumns df.cols := by
          rw [← pbpPrepare_cols]; exact hc
        calc (colValues c (pbpPrepare df)).map castInt32
            = (colValues c (pbpPrepare df)).map (fun v => v) :=
              List.map_congr_left (pbp_cast_fixed df c hi hcs)
          _ = colValues c (pbpPrepare df) := List.map_id' _
      · rw [castCols_colValues_not_mem _ _ _ hi]
  rw [pbpPrepare_restate (pbpPrepare df), hsel,
    select_eta ((pbpPrepare df).cols) (pbpPrepare df) rfl]
  by_cases hp : "play_id" ∈ (pbpPrepare df).cols
  · rw [if_pos hp]
    have hp0 : "play_id" ∈ availableCols pbpKeyColumns df.cols := by
      rw [← pbpPrepare_cols]; exact hp
    have hArows : (pbpPrepare df).rows
        = dedupKeys (fun r => r "play_id") [] (castCols pbpIntColumns
          (select (availableCols pbpKeyColumns df.cols) df)).rows := by
      rw [pbpPrepare_restate df, if_pos hp0, uniqueBy_rows]
    have hAnodup : ((pbpPrepare df).rows.map (fun r => r "play_id")).Nodup := by
      rw [hArows]
      exact (dedupKeys_keys_spec _ _ _).1
    have hkeys : (castCols pbpIntColumns (pbpPrepare df)).rows.map
        (fun r => r "play_id") = (pbpPrepare df).rows.map (fun r => r "play_id") :=
      castCols_colValues_not_mem pbpIntColumns "play_id" (pbpPrepare df) (by decide)
    have hU : uniqueBy "play_id" (castCols pbpIntColumns (pbpPrepare df))
        = castCols pbpIntColumns (pbpPrepare df) := by
      apply uniqueBy_eta
      apply dedupKeys_eq_self
      · rw [show (castCols pbpIntColumns (pbpPrepare df)).rows.map (fun r => r "play_id")
          = (pbpPrepare df).rows.map (fun r => r "play_id") from hkeys]
        exact hAnodup
      · intro v _
        exact List.not_mem_nil v
    rw [hU]
    exact hcast
  · rw [if_neg hp]
    exact hcast

theorem prepRosters_eq_bind (df : DataFrame) :
    prepRosters df = (renameStep "gsis_id" "player_id" (rostersDated df)).bind
      (fun df2 => (renameStep "full_name" "player_name" df2).bind
        (fun df3 => Except.ok (castCols rostersIntColumns
          (select (availableCols rostersSchemaColumns df3.cols) df3)))) := rfl

theorem rostersBody_not_gsis (df : DataFrame) : "gsis_id" ∉ (rostersBody df).cols := by
  rw [rostersBody_cols]
  intro h
  exact absurd ((mem_availableCols _ _ _).mp h).1 (by decide)

theorem rostersBody_not_full_name (df : DataFrame) :
    "full_name" ∉ (rostersBody df).cols := by
  rw [rostersBody_cols]
  intro h
  exact absurd ((mem_availableCols _ _ _).mp h).1 (by decide)

theorem rostersFiltered_rostersBody (df : DataFrame) :
    rostersFiltered (rostersBody df) = rostersBody df := by
  rw [rostersFiltered, if_neg (rostersBody_not_gsis df)]

theorem prepRosters_second (df : DataFrame) :
    prepRosters (rostersBody df) = Except.ok (castCols rostersIntColumns
      (select (availableCols rostersSchemaColumns
        (rostersDated (rostersBody df)).cols) (rostersDated (rostersBody df)))) := by
  rw [prepRosters_eq_bind]
  rw [renameStep_of_not_mem _ _ _ (by
    rw [rostersDated_cols, rostersFiltered_rostersBody]
    exact rostersBody_not_gsis df), ok_bind]
  rw [renameStep_of_not_mem _ _ _ (by
    rw [rostersDated_cols, rostersFiltered_rostersBody]
    exact rostersBody_not_full_name df), ok_bind]

theorem rostersSecond_sel (df : DataFrame) :
    availableCols rostersSchemaColumns (rostersDated (rostersBody df)).cols
      = (rostersBody df).cols := by
  rw [rostersDated_cols, rostersFiltered_rostersBody, rostersBody_cols,
    availableCols_idem, ← rostersBody_cols]

theorem rostersBody_cols_eq_sel (df : DataFrame) :
    (rostersBody df).cols = availableCols rostersSchemaColumns
      (renameStepF "full_name" "player_name"
        (renameStepF "gsis_id" "player_id" (rostersDated df))).cols := by
  rw [rostersBody, castCols_cols, select_cols]

theorem rosters_cast_fixed (df : DataFrame) (c : String)
    (hi : c ∈ rostersIntColumns) (hcs : c ∈ (rostersBody df).cols) :
    ∀ v ∈ colValues c (rostersBody df), castInt32 v = v := by
  intro v hv
  rw [rostersBody] at hv
  rw [castCols_colValues_mem _ _ _ hi (by
    rw [select_cols, ← rostersBody_cols_eq_sel]
    exact hcs)] at hv
  obtain ⟨w, _, he⟩ := List.mem_map.mp hv
  rw [← he]
  exact castInt32_idem w

theorem rostersBody_birth_cast_fixed (df : DataFrame)
    (hbd : "birth_date" ∈ (rostersBody df).cols) :
    (colValues "birth_date" (rostersBody df)).map castStr
      = colValues "birth_date" (rostersBody df) := by
  have h1 : colValues "birth_date" (rostersBody df)
      = colValues "birth_date" (rostersDated df) := by
    rw [rostersBody, castCols_colValues_not_mem _ _ _ (by decide), select_colValues,
      renameStepF_colValues_other _ _ _ _ (by decide),
      renameStepF_colValues_other _ _ _ _ (by decide)]
  have hbd_df : "birth_date" ∈ df.cols := by
    rw [rostersBody_cols] at hbd
    have h2 := ((mem_availableCols _ _ _).mp hbd).2
    rw [rostersColsAfterRename] at h2
    exact (mem_renameColsIf_iff _ _ _ _ (by decide) (by decide)).mp
      ((mem_renameColsIf_iff _ _ _ _ (by decide) (by decide)).mp h2)
  have h2 : colValues "birth_date" (rostersDated df)
      = ((rostersFiltered df).rows.map (fun r => r "birth_date")).map castStr := by
    rw [rostersDated, if_pos (by rw [rostersFiltered_cols]; exact hbd_df),
      withColumn_colValues_self, List.map_map]
    rfl
  rw [h1, h2, map_castStr_idem]

theorem rostersInt_ne_birth : ∀ c ∈ rostersIntColumns, c ≠ "birth_date" := by
  decide

theorem rostersBody_idem_cells (df : DataFrame) :
    toCells (castCols rostersIntColumns
      (select (availableCols rostersSchemaColumns
        (rostersDated (rostersBody df)).cols) (rostersDated (rostersBody df))))
      = toCells (rostersBody df) := by
  rw [rostersSecond_sel]
  apply toCells_eq_of
  · rw [castCols_cols, select_cols]
  · rw [castCols_rows_length, select_rows, rostersDated_rows_length,
      rostersFiltered_rostersBody]
  · intro c hc
    rw [castCols_cols, select_cols] at hc
    by_cases hi : c ∈ rostersIntColumns
    · rw [castCols_colValues_mem _ _ _ hi (by rw [select_cols]; exact hc),
        select_colValues,
        rostersDated_colValues_other _ _ (rostersInt_ne_birth c hi),
        rostersFiltered_rostersBody]
      calc (colValues c (rostersBody df)).map castInt32
          = (colValues c (rostersBody df)).map (fun v => v) :=
            List.map_congr_left (rosters_cast_fixed df c hi hc)
        _ = colValues c (rostersBody df) := List.map_id' _
    · rw [castCols_colValues_not_mem _ _ _ hi, select_colValues]
      by_cases hb : c = "birth_date"
      · subst hb
        rw [rostersDated, rostersFiltered_rostersBody, if_pos hc,
          withColumn_colValues_self]
        rw [show (rostersBody df).rows.map (fun r => castStr (r "birth_date"))
          = (colValues "birth_date" (rostersBody df)).map castStr from by
            simp only [colValues, List.map_map]; rfl]
        exact rostersBody_birth_cast_fixed df hc
      · rw [rostersDated_colValues_other _ _ hb, rostersFiltered_rostersBody]

theorem rosters_idem_except (df : DataFrame) :
    exceptToCells ((teamPrepare df "rosters").bind (fun d => teamPrepare d "rosters"))
      = exceptToCells (teamPrepare df "rosters") := by
  simp only [teamPrepare_rosters_eq]
  cases h : prepRosters df with
  | error e => rfl
  | ok out =>
    have hb := prepRosters_ok_elim df out h
    rw [ok_bind, hb, prepRosters_second df]
    exact congrArg some (rostersBody_idem_cells df)

/-- C4 amended: the Schema Mapper is idempotent for the play-by-play,
player-stats, rosters, and team-info mappings (applying the mapper to its
own output yields the same header and cells, and an error propagates
unchanged); it is not idempotent for schedules, where the renamed
`game_date` column is dropped on reapplication, nor in general for team
stats, where `total_yards` is recomputed from the already-cast columns and
changes when a value was out of Int32 range. -/
theorem mapper_idempotence_amended :
    (∀ df : DataFrame, toCells (pbpPrepare (pbpPrepare df)) = toCells (pbpPrepare df))
    ∧ (∀ df : DataFrame, exceptToCells ((playerPrepare df).bind playerPrepare)
        = exceptToCells (playerPrepare df))
    ∧ (∀ df : DataFrame, exceptToCells ((teamPrepare df "rosters").bind
        (fun d => teamPrepare d "rosters")) = exceptToCells (teamPrepare df "rosters"))
    ∧ (∀ df : DataFrame, exceptToCells ((teamPrepare df "info").bind
        (fun d => teamPrepare d "info")) = exceptToCells (teamPrepare df "info")) := by
  refine ⟨fun df => pbpPrepare_idem df, fun df => ?_,
    fun df => rosters_idem_except df, fun df => ?_⟩
  · rw [playerPrepare_eq, ok_bind, playerPrepare_eq]
    exact congrArg some (playerBody_idem df)
  · simp only [teamPrepare_info_eq]
    rw [prepInfo_idem df]

/-- C4 witness: the idempotence statement applied to a concrete
play-by-play table with a duplicated play_id (whose first application
dedups it to 2 rows), and to the same table as a player-stats input. -/
theorem mapper_idempotence_amended_witness :
    toCells (pbpPrepare (pbpPrepare pbpWitDf)) = toCells (pbpPrepare pbpWitDf)
    ∧ exceptToCells ((playerPrepare pbpWitDf).bind playerPrepare)
        = exceptToCells (playerPrepare pbpWitDf)
    ∧ (pbpPrepare pbpWitDf).rows.length = 2 :=
  ⟨mapper_idempotence_amended.1 pbpWitDf, mapper_idempotence_amended.2.1 pbpWitDf,
   by decide⟩

/-- C3 witness: on an input with columns gameday, gsis_id, passing_yards,
rushing_yards, season, the stats mapping yields the schema-filtered columns
including the derived total_yards, the schedules mapping yields season and
game_date, and the rosters mapping yields player_id and season. -/
theorem mapper_colset_amended_witness :
    exceptColsList (teamPrepare multiColsDf "stats")
      = ["season", "passing_yards", "rushing_yards", "total_yards"]
    ∧ exceptColsList (teamPrepare multiColsDf "schedules") = ["season", "game_date"]
    ∧ exceptColsList (teamPrepare multiColsDf "rosters") = ["player_id", "season"]
    ∧ (pbpPrepare multiColsDf).cols = ["season"] :=
  ⟨(((mapper_colset_amended multiColsDf).2.2.2.2.1.1) (by decide)).trans (by decide),
   (((mapper_colset_amended multiColsDf).2.2.2.2.2.1) (by decide) (by decide)).trans
     (by decide),
   (((mapper_colset_amended multiColsDf).2.2.1.1) (by decide)).trans (by decide),
   ((mapper_colset_amended multiColsDf).1.1).trans (by decide)⟩

end NflSupabase
